import Mathlib

/-!
Verification development for the construction/window-layer validation and
screen-optics module `DataHeatBalance` of the EnergyPlus building simulation
engine.  The definitions below are a shallow embedding of the routines
`CheckAndSetConstructionProperties`, `AssignReverseConstructionNumber`,
`AddVariableSlatBlind` and `CalcScreenTransmittance` from
`src/EnergyPlus/DataHeatBalance.cc`.  Fortran-style arrays are modelled as
1-indexed total functions or lists; `Real64` quantities that only undergo
field arithmetic and comparisons are modelled over `ℚ` (keeping every
comparison exact and executable), while the trigonometric routines are
modelled over `ℝ`.
-/

namespace DataHeatBalance

/-- Maximum number of layers allowed in a single construction. -/
def MaxLayersInConstruct : ℕ := 11

/-- Material group codes, exactly as the integer constants of the module. -/
def RegularMaterial : ℤ := 0

def Air : ℤ := 1

def Shade : ℤ := 2

def WindowGlass : ℤ := 3

def WindowGas : ℤ := 4

def WindowBlind : ℤ := 5

def WindowGasMixture : ℤ := 6

def Screen : ℤ := 7

def EcoRoof : ℤ := 8

def IRTMaterial : ℤ := 9

def WindowSimpleGlazing : ℤ := 10

def ComplexWindowShade : ℤ := 11

def ComplexWindowGap : ℤ := 12

def GlassEquivalentLayer : ℤ := 13

def ShadeEquivalentLayer : ℤ := 14

def DrapeEquivalentLayer : ℤ := 15

def BlindEquivalentLayer : ℤ := 16

def ScreenEquivalentLayer : ℤ := 17

def GapEquivalentLayer : ℤ := 18

/-- The fields of `MaterialProperties` read by the routines modelled here. -/
structure MaterialProperties where
  group : ℤ
  absorpVisible : ℚ
  absorpSolar : ℚ
  absorpThermal : ℚ
  absorpThermalFront : ℚ
  absorpThermalBack : ℚ
  thickness : ℚ
  gasType : Fin 5 → ℤ
  gasFract : Fin 5 → ℚ
  solarDiffusing : Bool
  blindDataPtr : ℕ
  roughness : ℤ

instance : Inhabited MaterialProperties :=
  ⟨{ group := 0, absorpVisible := 0, absorpSolar := 0, absorpThermal := 0,
     absorpThermalFront := 0, absorpThermalBack := 0, thickness := 0,
     gasType := fun _ => 0, gasFract := fun _ => 0, solarDiffusing := false,
     blindDataPtr := 0, roughness := 0 }⟩

/-- Fields of `ConstructionData` that `CheckAndSetConstructionProperties`
derives or overwrites (the routine never touches the layer sequence). -/
structure ConstrDerived where
  dayltPropPtr : ℤ
  insideAbsorpVis : ℚ
  insideAbsorpSolar : ℚ
  reflectVisDiffBack : ℚ
  outsideAbsorpVis : ℚ
  outsideAbsorpSolar : ℚ
  totSolidLayers : ℕ
  totGlassLayers : ℕ
  absDiffShade : ℚ
  typeIsWindow : Bool
  numCTFTerms : ℕ
  numHistories : ℕ
  insideAbsorpThermal : ℚ
  outsideAbsorpThermal : ℚ
  outsideRoughness : ℤ
  typeIsEcoRoof : Bool
  typeIsIRT : Bool

instance : Inhabited ConstrDerived :=
  ⟨{ dayltPropPtr := 0, insideAbsorpVis := 0, insideAbsorpSolar := 0,
     reflectVisDiffBack := 0, outsideAbsorpVis := 0, outsideAbsorpSolar := 0,
     totSolidLayers := 0, totGlassLayers := 0, absDiffShade := 0,
     typeIsWindow := false, numCTFTerms := 0, numHistories := 0,
     insideAbsorpThermal := 0, outsideAbsorpThermal := 0, outsideRoughness := 0,
     typeIsEcoRoof := false, typeIsIRT := false }⟩

/-- A construction: a name, a 1-indexed layer-reference array (`layerPoint k`
is the material number of layer `k`, `0` for an unused slot), the layer count,
the two special window-model flags, and the derived fields. -/
structure ConstructionData where
  name : String
  totLayers : ℕ
  layerPoint : ℕ → ℕ
  windowTypeBSDF : Bool
  windowTypeEQL : Bool
  isUsed : Bool
  d : ConstrDerived

instance : Inhabited ConstructionData :=
  ⟨{ name := "", totLayers := 0, layerPoint := fun _ => 0,
     windowTypeBSDF := false, windowTypeEQL := false, isUsed := false,
     d := default }⟩

/-- The 1-based index list `[1, …, n]` of a Fortran `DO Layer = 1, n` loop. -/
def layerIdx (n : ℕ) : List ℕ := List.range' 1 n

/-- The window-eligible material groups of the classification loop
(`Group == WindowGlass .OR. … .OR. Group == GapEquivalentLayer`). -/
def windowEligible (g : ℤ) : Prop :=
  g = WindowGlass ∨ g = WindowGas ∨ g = WindowGasMixture ∨ g = Shade ∨
    g = WindowBlind ∨ g = Screen ∨ g = WindowSimpleGlazing ∨
    g = ComplexWindowShade ∨ g = ComplexWindowGap ∨ g = GlassEquivalentLayer ∨
    g = ShadeEquivalentLayer ∨ g = DrapeEquivalentLayer ∨
    g = ScreenEquivalentLayer ∨ g = BlindEquivalentLayer ∨ g = GapEquivalentLayer

instance windowEligibleDec (g : ℤ) : Decidable (windowEligible g) := by
  unfold windowEligible; infer_instance

/-- The classification loop: some nonzero layer has a window-eligible group. -/
def anyWindowLayer (mat : ℕ → MaterialProperties) (cst : ConstructionData) : Bool :=
  (layerIdx cst.totLayers).any fun L =>
    decide (cst.layerPoint L ≠ 0 ∧ windowEligible (mat (cst.layerPoint L)).group)

/-- Number of glass layers (`WindowGlass` plus `WindowSimpleGlazing`). -/
def totGlassLayersCalc (mat : ℕ → MaterialProperties) (cst : ConstructionData) : ℕ :=
  List.countP (fun L => decide (cst.layerPoint L ≠ 0 ∧
      (mat (cst.layerPoint L)).group = WindowGlass)) (layerIdx cst.totLayers) +
    List.countP (fun L => decide (cst.layerPoint L ≠ 0 ∧
      (mat (cst.layerPoint L)).group = WindowSimpleGlazing)) (layerIdx cst.totLayers)

/-- Number of shading layers (shades, blinds, screens, complex shades). -/
def totShadeLayersCalc (mat : ℕ → MaterialProperties) (cst : ConstructionData) : ℕ :=
  List.countP (fun L => decide (cst.layerPoint L ≠ 0 ∧
      ((mat (cst.layerPoint L)).group = Shade ∨
       (mat (cst.layerPoint L)).group = WindowBlind ∨
       (mat (cst.layerPoint L)).group = Screen ∨
       (mat (cst.layerPoint L)).group = ComplexWindowShade))) (layerIdx cst.totLayers)

/-- Number of gas layers (gas, gas mixture, complex gap). -/
def totGasLayersCalc (mat : ℕ → MaterialProperties) (cst : ConstructionData) : ℕ :=
  List.countP (fun L => decide (cst.layerPoint L ≠ 0 ∧
      ((mat (cst.layerPoint L)).group = WindowGas ∨
       (mat (cst.layerPoint L)).group = WindowGasMixture ∨
       (mat (cst.layerPoint L)).group = ComplexWindowGap))) (layerIdx cst.totLayers)

/-- Two consecutive (nonzero) layers of the same material group. -/
def adjacentSameGroup (mat : ℕ → MaterialProperties) (cst : ConstructionData) : Bool :=
  (layerIdx (cst.totLayers - 1)).any fun L =>
    decide (cst.layerPoint L ≠ 0 ∧ cst.layerPoint (L + 1) ≠ 0 ∧
      (mat (cst.layerPoint L)).group = (mat (cst.layerPoint (L + 1))).group)

/-- Ordinal of layer `L` among the `WindowGlass` layers (the running
`GlassLayNum` counter of the diffusing-glass position check). -/
def glassOrdinal (mat : ℕ → MaterialProperties) (cst : ConstructionData) (L : ℕ) : ℕ :=
  List.countP (fun j => decide (cst.layerPoint j ≠ 0 ∧
      (mat (cst.layerPoint j)).group = WindowGlass)) (layerIdx L)

/-- Diffusing-glass exclusion: some nonzero diffusing layer while the
construction carries a shading layer. -/
def anyDiffusingWithShade (mat : ℕ → MaterialProperties) (cst : ConstructionData)
    (totShade : ℕ) : Bool :=
  (layerIdx cst.totLayers).any fun L =>
    decide (cst.layerPoint L ≠ 0 ∧ (mat (cst.layerPoint L)).solarDiffusing = true ∧
      0 < totShade)

/-- Diffusing-glass position rule: a diffusing glass layer that is not the
innermost glass layer. -/
def anyDiffusingNotInnermost (mat : ℕ → MaterialProperties) (cst : ConstructionData)
    (totGlass : ℕ) : Bool :=
  (layerIdx cst.totLayers).any fun L =>
    decide (cst.layerPoint L ≠ 0 ∧ (mat (cst.layerPoint L)).group = WindowGlass ∧
      glassOrdinal mat cst L < totGlass ∧ (mat (cst.layerPoint L)).solarDiffusing = true)

/-- Simple-glazing exclusivity: some other nonzero layer of group `g`. -/
def anyLayerOfGroup (mat : ℕ → MaterialProperties) (cst : ConstructionData)
    (g : ℤ) : Bool :=
  (layerIdx cst.totLayers).any fun L =>
    decide (cst.layerPoint L ≠ 0 ∧ (mat (cst.layerPoint L)).group = g)

/-- The exact layer pattern required for a double-glazing between-glass
shade/blind: glass / gas / shade-or-blind / gas / glass. -/
def validBGDouble (mat : ℕ → MaterialProperties) (cst : ConstructionData) : Prop :=
  (mat (cst.layerPoint 1)).group = WindowGlass ∧
  ((mat (cst.layerPoint 2)).group = WindowGas ∨
   (mat (cst.layerPoint 2)).group = WindowGasMixture) ∧
  (((mat (cst.layerPoint 3)).group = Shade ∨
    (mat (cst.layerPoint 3)).group = WindowBlind) ∧
   (mat (cst.layerPoint 3)).group ≠ Screen) ∧
  ((mat (cst.layerPoint 4)).group = WindowGas ∨
   (mat (cst.layerPoint 4)).group = WindowGasMixture) ∧
  (mat (cst.layerPoint 5)).group = WindowGlass

instance validBGDoubleDec (mat : ℕ → MaterialProperties) (cst : ConstructionData) :
    Decidable (validBGDouble mat cst) := by
  unfold validBGDouble; infer_instance

/-- The exact layer pattern required for a triple-glazing between-glass
shade/blind: glass / gas / glass / gas / shade-or-blind / gas / glass. -/
def validBGTriple (mat : ℕ → MaterialProperties) (cst : ConstructionData) : Prop :=
  (mat (cst.layerPoint 1)).group = WindowGlass ∧
  ((mat (cst.layerPoint 2)).group = WindowGas ∨
   (mat (cst.layerPoint 2)).group = WindowGasMixture) ∧
  (mat (cst.layerPoint 3)).group = WindowGlass ∧
  ((mat (cst.layerPoint 4)).group = WindowGas ∨
   (mat (cst.layerPoint 4)).group = WindowGasMixture) ∧
  (((mat (cst.layerPoint 5)).group = Shade ∨
    (mat (cst.layerPoint 5)).group = WindowBlind) ∧
   (mat (cst.layerPoint 5)).group ≠ Screen) ∧
  ((mat (cst.layerPoint 6)).group = WindowGas ∨
   (mat (cst.layerPoint 6)).group = WindowGasMixture) ∧
  (mat (cst.layerPoint 7)).group = WindowGlass

instance validBGTripleDec (mat : ℕ → MaterialProperties) (cst : ConstructionData) :
    Decidable (validBGTriple mat cst) := by
  unfold validBGTriple; infer_instance

/-- Disagreement between the two gas layers flanking a between-glass
shade/blind: for the 5- and 7-layer between-glass patterns the flanking gaps
sit at layers `totLayers - 3` and `totLayers - 1`; they disagree when some of
the 5 gas species slots differs in type or fraction, or the thicknesses
differ by more than `0.0005`. -/
def bgGapMismatch (mat : ℕ → MaterialProperties) (cst : ConstructionData) : Prop :=
  (∃ i : Fin 5,
      (mat (cst.layerPoint (cst.totLayers - 3))).gasType i ≠
        (mat (cst.layerPoint (cst.totLayers - 1))).gasType i ∨
      (mat (cst.layerPoint (cst.totLayers - 3))).gasFract i ≠
        (mat (cst.layerPoint (cst.totLayers - 1))).gasFract i) ∨
    (0.0005 : ℚ) < |(mat (cst.layerPoint (cst.totLayers - 3))).thickness -
      (mat (cst.layerPoint (cst.totLayers - 1))).thickness|

instance bgGapMismatchDec (mat : ℕ → MaterialProperties) (cst : ConstructionData) :
    Decidable (bgGapMismatch mat cst) := by
  unfold bgGapMismatch; infer_instance

/-- The EcoRoof interior-layer scan (`DO Layer = 2, TotLayers`). -/
def anyEcoRoofBeyondFirst (mat : ℕ → MaterialProperties)
    (cst : ConstructionData) : Bool :=
  (List.range' 2 (cst.totLayers - 1)).any fun L =>
    decide ((mat (cst.layerPoint L)).group = EcoRoof)

/-- Error-flag chain of the tail of `CheckAndSetConstructionProperties`:
Air boundary checks, the EcoRoof positional scan, and the IRT layer-count
check; `insideLayer` is the possibly decremented inside-layer index. -/
def efTail (mat : ℕ → MaterialProperties) (cst : ConstructionData)
    (insideLayer : ℕ) (ef : Bool) : Bool :=
  let ef := ef || decide ((mat (cst.layerPoint 1)).group = Air)
  let ef := ef || decide (0 < insideLayer ∧ (mat (cst.layerPoint insideLayer)).group = Air)
  let ef := if (mat (cst.layerPoint 1)).group = EcoRoof then
      ef || anyEcoRoofBeyondFirst mat cst
    else ef
  if (mat (cst.layerPoint 1)).group = IRTMaterial then
    ef || decide (cst.totLayers ≠ 1)
  else ef

/-- Derived-field updates of the tail: roughness copy and the EcoRoof/IRT
classification flags. -/
def dTail (mat : ℕ → MaterialProperties) (cst : ConstructionData)
    (d : ConstrDerived) : ConstrDerived :=
  let d := { d with outsideRoughness := (mat (cst.layerPoint 1)).roughness }
  let d := if (mat (cst.layerPoint 1)).group = EcoRoof then
      { d with typeIsEcoRoof := true } else d
  if (mat (cst.layerPoint 1)).group = IRTMaterial then
    { d with typeIsIRT := true } else d

/-- Tail of `CheckAndSetConstructionProperties` (roughness copy, Air boundary
checks, EcoRoof and IRT classification); `insideLayer` is the possibly
decremented inside-layer index coming from the window branch. -/
def caspTail (mat : ℕ → MaterialProperties) (cst : ConstructionData)
    (insideLayer : ℕ) (d : ConstrDerived) (ef : Bool) : ConstructionData × Bool :=
  ({ cst with d := dTail mat cst d }, efTail mat cst insideLayer ef)

/-- First error-accumulation chain of the window branch: illegal material
mix, too many layers, and the single-layer composition check. -/
def efMixAndCount (mat : ℕ → MaterialProperties) (cst : ConstructionData)
    (ef : Bool) : Bool :=
  let n := cst.totLayers
  let grp : ℕ → ℤ := fun L => (mat (cst.layerPoint L)).group
  let wrongMaterialsMix := (layerIdx n).any fun L =>
    decide (cst.layerPoint L ≠ 0 ∧ ¬ windowEligible (grp L))
  ef ||
    (if wrongMaterialsMix then true
     else if 8 < n ∧ cst.windowTypeBSDF = false ∧ cst.windowTypeEQL = false then true
     else if n = 1 then
       decide (grp 1 = Shade ∨ grp 1 = WindowGas ∨ grp 1 = WindowGasMixture ∨
         grp 1 = WindowBlind ∨ grp 1 = Screen ∨ grp 1 = ComplexWindowShade ∨
         grp 1 = ComplexWindowGap)
     else false)

/-- `WrongWindowLayering` updates between the equivalent-layer early return
and the between-glass block: gas at a boundary, more than one shading layer,
and the interior-screen rule. -/
def wwPreBG (mat : ℕ → MaterialProperties) (cst : ConstructionData)
    (totShade : ℕ) (ww : Bool) : Bool :=
  let n := cst.totLayers
  let grp : ℕ → ℤ := fun L => (mat (cst.layerPoint L)).group
  let ww := ww || decide (grp 1 = WindowGas ∨ grp 1 = WindowGasMixture ∨
      grp n = WindowGas ∨ grp n = WindowGasMixture)
  let ww := ww || decide (1 < totShade)
  ww || decide (totShade = 1 ∧ grp n = Screen ∧ n ≠ 1)

/-- The two diffusing-glass error checks. -/
def efDiffusing (mat : ℕ → MaterialProperties) (cst : ConstructionData)
    (totGlass totShade : ℕ) (ef : Bool) : Bool :=
  let ef := ef || anyDiffusingWithShade mat cst totShade
  ef || (decide (1 < totGlass) && anyDiffusingNotInnermost mat cst totGlass)

/-- The between-glass shade/blind consistency block (pattern check, gas
match, thickness tolerance, blind slat width); returns the updated
(`WrongWindowLayering`, `ErrorsFound`) pair. -/
def bgCheck (mat : ℕ → MaterialProperties) (blindSlatWidth : ℕ → ℚ)
    (cst : ConstructionData) (totGlass totShade : ℕ) (ww ef : Bool) :
    Bool × Bool :=
  let n := cst.totLayers
  let grp : ℕ → ℤ := fun L => (mat (cst.layerPoint L)).group
  if totShade = 1 ∧ grp 1 ≠ Shade ∧ grp 1 ≠ WindowBlind ∧ grp 1 ≠ Screen ∧
      grp n ≠ Shade ∧ grp n ≠ WindowBlind ∧ grp n ≠ ComplexWindowShade ∧
      ww = false then
    if totGlass = 4 then (true, ef)
    else if totGlass = 2 ∨ totGlass = 3 then
      let ww5 : Bool :=
        if totGlass = 2 then
          (if n ≠ 5 then true else ! decide (validBGDouble mat cst))
        else
          (if n ≠ 7 then true else ! decide (validBGTriple mat cst))
      if ww5 then (true, ef)
      else
        let layNumSh := 2 * totGlass - 1
        let matSh := cst.layerPoint layNumSh
        let ww6 := ww5 ||
          ! decide ((mat matSh).group = Shade ∨ (mat matSh).group = WindowBlind) ||
          decide (n ≠ 2 * totGlass + 1)
        if ww6 then (ww6, ef)
        else
          let matGapL := cst.layerPoint (layNumSh - 1)
          let matGapR := cst.layerPoint (layNumSh + 1)
          let ww7 := ww6 || decide (∃ i : Fin 5,
              (mat matGapL).gasType i ≠ (mat matGapR).gasType i ∨
              (mat matGapL).gasFract i ≠ (mat matGapR).gasFract i)
          let ww7 := ww7 || decide
              ((0.0005 : ℚ) < |(mat matGapL).thickness - (mat matGapR).thickness|)
          let ef := ef || decide ((mat matSh).group = WindowBlind ∧
              0 < (mat matSh).blindDataPtr ∧
              (mat matGapL).thickness + (mat matGapR).thickness <
                blindSlatWidth (mat matSh).blindDataPtr)
          (ww7, ef)
    else (ww, ef)
  else (ww, ef)

/-- The simple-glazing exclusivity checks. -/
def efSimpleGlazing (mat : ℕ → MaterialProperties) (cst : ConstructionData)
    (ef : Bool) : Bool :=
  let n := cst.totLayers
  let grp : ℕ → ℤ := fun L => (mat (cst.layerPoint L)).group
  let ef := ef || (decide (grp 1 = WindowSimpleGlazing ∧ 1 < n) &&
      anyLayerOfGroup mat cst WindowGlass)
  ef || (decide (grp 1 = WindowSimpleGlazing ∧ 1 < n) &&
      anyLayerOfGroup mat cst WindowGas)

/-- The thermal/visible absorptance updates at the end of the window branch
(with `insideLayer` already decremented past an interior shade/blind). -/
def caspWindowThermal (mat : ℕ → MaterialProperties) (cst : ConstructionData)
    (insideLayer insideMaterNum : ℕ) (d : ConstrDerived) : ConstrDerived :=
  let grp : ℕ → ℤ := fun L => (mat (cst.layerPoint L)).group
  let d := if 0 < insideLayer then
      { d with insideAbsorpThermal := (mat (cst.layerPoint insideLayer)).absorpThermalBack }
    else d
  let d := if insideMaterNum ≠ 0 then
      { d with insideAbsorpVis := (mat insideMaterNum).absorpVisible,
               insideAbsorpSolar := (mat insideMaterNum).absorpSolar }
    else d
  if grp 1 = WindowGlass ∨ grp 1 = WindowSimpleGlazing then
    { d with outsideAbsorpThermal := (mat (cst.layerPoint 1)).absorpThermalFront }
  else
    { d with outsideAbsorpThermal := (mat (cst.layerPoint 1)).absorpThermal }

/-- Window branch of `CheckAndSetConstructionProperties` (everything guarded
by `Construct(ConstrNum)%TypeIsWindow`); falls through to `caspTail` except
for the BSDF and equivalent-layer early returns. -/
def caspWindow (mat : ℕ → MaterialProperties) (blindSlatWidth : ℕ → ℚ)
    (cst : ConstructionData) (insideLayer : ℕ) (insideMaterNum : ℕ)
    (d : ConstrDerived) (ef : Bool) : ConstructionData × Bool :=
  let grp : ℕ → ℤ := fun L => (mat (cst.layerPoint L)).group
  let d := { d with numCTFTerms := 0, numHistories := 0 }
  let ef := efMixAndCount mat cst ef
  let totGlass := totGlassLayersCalc mat cst
  let totShade := totShadeLayersCalc mat cst
  let ww := adjacentSameGroup mat cst
  if cst.windowTypeBSDF then
    ({ cst with d := { d with totGlassLayers := totGlass,
                              totSolidLayers := totGlass + totShade,
                              insideAbsorpThermal :=
                                (mat (cst.layerPoint insideLayer)).absorpThermalBack,
                              outsideAbsorpThermal :=
                                (mat (cst.layerPoint 1)).absorpThermalFront } }, ef)
  else if cst.windowTypeEQL then
    ({ cst with d := { d with insideAbsorpThermal :=
                                (mat (cst.layerPoint insideLayer)).absorpThermalBack,
                              outsideAbsorpThermal :=
                                (mat (cst.layerPoint 1)).absorpThermalFront } }, ef)
  else
    let ef := efDiffusing mat cst totGlass totShade ef
    let ww := wwPreBG mat cst totShade ww
    let bgRes := bgCheck mat blindSlatWidth cst totGlass totShade ww ef
    let ww := bgRes.1
    let ef := bgRes.2
    let ef := efSimpleGlazing mat cst ef
    let ef := ef || ww
    let d := { d with totGlassLayers := totGlass, totSolidLayers := totGlass + totShade }
    let insideLayer := if grp insideLayer = Shade ∨ grp insideLayer = WindowBlind then
        insideLayer - 1 else insideLayer
    let insideMaterNum := if 0 < insideLayer then cst.layerPoint insideLayer
      else insideMaterNum
    let d := caspWindowThermal mat cst insideLayer insideMaterNum d
    caspTail mat cst insideLayer d ef

/-- The derived-field initialization of `CheckAndSetConstructionProperties`
performed before the window/opaque branch: daylighting pointer reset,
inner/outer visible and solar absorptances, counter resets, and the window
classification. -/
def caspBaseDerived (mat : ℕ → MaterialProperties) (cst : ConstructionData) :
    ConstrDerived :=
  let d := { cst.d with dayltPropPtr := 0 }
  let insideMaterNum := cst.layerPoint cst.totLayers
  let d := if insideMaterNum ≠ 0 then
      { d with insideAbsorpVis := (mat insideMaterNum).absorpVisible,
               insideAbsorpSolar := (mat insideMaterNum).absorpSolar,
               reflectVisDiffBack := 1 - (mat insideMaterNum).absorpVisible }
    else d
  let outsideMaterNum := cst.layerPoint 1
  let d := if outsideMaterNum ≠ 0 then
      { d with outsideAbsorpVis := (mat outsideMaterNum).absorpVisible,
               outsideAbsorpSolar := (mat outsideMaterNum).absorpSolar }
    else d
  let d := { d with totSolidLayers := 0, totGlassLayers := 0, absDiffShade := 0 }
  { d with typeIsWindow := anyWindowLayer mat cst }

/-- `CheckAndSetConstructionProperties`: checks a construction, derives its
fields, and accumulates the error flag (second component). -/
def checkAndSetConstructionProperties (mat : ℕ → MaterialProperties)
    (blindSlatWidth : ℕ → ℚ) (cst : ConstructionData) (errorsFound : Bool) :
    ConstructionData × Bool :=
  if cst.layerPoint cst.totLayers = 0 then (cst, errorsFound)
  else if cst.totLayers = 0 then (cst, errorsFound)
  else
    let d := caspBaseDerived mat cst
    let insideMaterNum := cst.layerPoint cst.totLayers
    let outsideMaterNum := cst.layerPoint 1
    if insideMaterNum = 0 then ({ cst with d := d }, errorsFound)
    else if outsideMaterNum = 0 then ({ cst with d := d }, errorsFound)
    else if d.typeIsWindow then
      caspWindow mat blindSlatWidth cst cst.totLayers insideMaterNum d errorsFound
    else
      let d := { d with
          insideAbsorpThermal := (mat (cst.layerPoint cst.totLayers)).absorpThermal,
          outsideAbsorpThermal := (mat (cst.layerPoint 1)).absorpThermal }
      caspTail mat cst cst.totLayers d errorsFound

/-- The construction registry together with the per-construction nominal
R and U arrays that `AssignReverseConstructionNumber` grows alongside it.
Construction `i` (1-based, as in the source) lives at list position `i - 1`. -/
structure ConstrState where
  constructs : List ConstructionData
  nominalRforNominalUCalculation : List ℚ
  nominalU : List ℚ

/-- 1-based read access to the construction registry. -/
def getConstruct (s : ConstrState) (i : ℕ) : ConstructionData :=
  s.constructs.getD (i - 1) default

/-- `Construct(ConstrNum)%IsUsed = .TRUE.`. -/
def markUsed (s : ConstrState) (i : ℕ) : ConstrState :=
  { s with constructs := s.constructs.set (i - 1) { getConstruct s i with isUsed := true } }

/-- The local reversed `LayerPoint` array: slot `k` holds layer
`TotLayers + 1 - k` of the original for `1 ≤ k ≤ TotLayers`, `0` beyond. -/
def reversedLayerPoint (c : ConstructionData) : ℕ → ℕ :=
  fun k => if 1 ≤ k ∧ k ≤ c.totLayers then c.layerPoint (c.totLayers + 1 - k) else 0

/-- Exact match over all `MaxLayersInConstruct` layer slots. -/
def layerSlotsMatch (a b : ℕ → ℕ) : Bool :=
  (List.range' 1 MaxLayersInConstruct).all fun k => a k == b k

/-- The linear scan for an existing construction whose layer slots all equal
`rev` (first match wins, as in the source loop). -/
def findMatchingConstruction (s : ConstrState) (rev : ℕ → ℕ) : Option ℕ :=
  (List.range' 1 s.constructs.length).find? fun i =>
    layerSlotsMatch (getConstruct s i).layerPoint rev

/-- `AssignReverseConstructionNumber`: returns the index of a construction
with the reversed layer order (deduplicated), the updated registry state,
and the threaded error flag. -/
def assignReverseConstructionNumber (mat : ℕ → MaterialProperties)
    (blindSlatWidth : ℕ → ℚ) (nominalRMat : ℕ → ℚ) (s : ConstrState)
    (constrNum : ℕ) (errorsFound : Bool) : ℕ × ConstrState × Bool :=
  if constrNum = 0 then (0, s, errorsFound)
  else
    let s := markUsed s constrNum
    let orig := getConstruct s constrNum
    let rev := reversedLayerPoint orig
    match findMatchingConstruction s rev with
    | some i => (i, s, errorsFound)
    | none =>
      -- append a new construction copying the original's attributes,
      -- with the marker name prefix and the reversed layer slots
      let newLayerPoint : ℕ → ℕ := fun k =>
        if 1 ≤ k ∧ k ≤ MaxLayersInConstruct then rev k else orig.layerPoint k
      let newC : ConstructionData :=
        { orig with name := "iz-" ++ orig.name, layerPoint := newLayerPoint }
      let newR : ℚ := ((List.range' 1 MaxLayersInConstruct).map fun k =>
        if newLayerPoint k ≠ 0 then nominalRMat (newLayerPoint k) else 0).sum
      let newU : ℚ := if newR ≠ 0 then 1 / newR else 0
      let s : ConstrState :=
        { constructs := s.constructs ++ [newC],
          nominalRforNominalUCalculation := s.nominalRforNominalUCalculation ++ [newR],
          nominalU := s.nominalU ++ [newU] }
      let tot := s.constructs.length
      let res := checkAndSetConstructionProperties mat blindSlatWidth (getConstruct s tot)
        errorsFound
      let s := { s with constructs := s.constructs.set (tot - 1) res.1 }
      (tot, s, res.2)

/-- Wellformedness of one registry entry: at least one layer, no more than
`MaxLayersInConstruct`, active slots hold nonzero material references, and
slots past `totLayers` are unused (zero). -/
def wfConstruction (c : ConstructionData) : Prop :=
  1 ≤ c.totLayers ∧ c.totLayers ≤ MaxLayersInConstruct ∧
    (∀ k ∈ List.range' 1 MaxLayersInConstruct, k ≤ c.totLayers → c.layerPoint k ≠ 0) ∧
    (∀ k ∈ List.range' 1 MaxLayersInConstruct, c.totLayers < k → c.layerPoint k = 0)

instance wfConstructionDec (c : ConstructionData) : Decidable (wfConstruction c) := by
  unfold wfConstruction; infer_instance

/-- Wellformedness of the registry. -/
def wfState (s : ConstrState) : Prop := ∀ c ∈ s.constructs, wfConstruction c

instance wfStateDec (s : ConstrState) : Decidable (wfState s) := by
  unfold wfState; infer_instance

/-- `FindItemInList`: 1-based index of the first exact name match, `0` when
absent.  Modelled from the spec: the InputProcessor helper is not part of
this source file; the spec describes it as a name lookup over the blind
registry. -/
def findItemInList (nm : String) (items : List String) : ℕ :=
  match items.indexOf? nm with
  | some i => i + 1
  | none => 0

/-- The fields of `WindowBlindProperties` read or written by
`AddVariableSlatBlind`. -/
structure WindowBlindProperties where
  name : String
  slatAngleType : ℤ
  slatWidth : ℝ
  slatSeparation : ℝ
  slatThickness : ℝ
  slatAngle : ℝ
  minSlatAngle : ℝ
  maxSlatAngle : ℝ

instance : Inhabited WindowBlindProperties :=
  ⟨{ name := "", slatAngleType := 0, slatWidth := 0, slatSeparation := 0,
     slatThickness := 0, slatAngle := 0, minSlatAngle := 0, maxSlatAngle := 0 }⟩

/-- `FixedSlats` constant. -/
def FixedSlats : ℤ := 1

/-- `VariableSlats` constant. -/
def VariableSlats : ℤ := 2

/-- 1-based read access to the blind registry. -/
def blindAt (blinds : List WindowBlindProperties) (i : ℕ) : WindowBlindProperties :=
  blinds.getD (i - 1) default

noncomputable section

/-- `DegToRadians` from `DataGlobals`.  Modelled from the spec: the constant
itself is defined outside this source file; it is the degree-to-radian
conversion factor used throughout (`π / 180`). -/
def degToRadians : ℝ := Real.pi / 180

/-- Result record of `AddVariableSlatBlind`: the updated blind registry, the
returned blind index, the error flag, and whether each of the two
geometry-clamp warnings was emitted. -/
structure AddVarBlindResult where
  blinds : List WindowBlindProperties
  outBlindNumber : ℕ
  errFlag : Bool
  warnedMinClamp : Bool
  warnedMaxClamp : Bool

/-- `AddVariableSlatBlind`: find or create the variable-slat clone of blind
`inBlindNumber` (clone marked by prefixing the name with `~`), validating and
clamping its slat angles. -/
def addVariableSlatBlind (blinds : List WindowBlindProperties)
    (inBlindNumber : ℕ) : AddVarBlindResult :=
  let found := findItemInList ("~" ++ (blindAt blinds inBlindNumber).name)
    (blinds.map (fun b => b.name))
  if found = 0 then
    let src := blindAt blinds inBlindNumber
    let b := { src with name := "~" ++ src.name, slatAngleType := VariableSlats }
    -- minimum and maximum slat angles allowed by slat geometry
    let minSlatAngGeom : ℝ :=
      if b.slatWidth > b.slatSeparation then
        Real.arcsin (b.slatThickness / (b.slatThickness + b.slatSeparation)) / degToRadians
      else 0
    let maxSlatAngGeom : ℝ := 180 - minSlatAngGeom
    -- error if maximum slat angle less than minimum
    let errFlag := decide (b.maxSlatAngle < b.minSlatAngle)
    -- error if input slat angle not in input min/max range
    let errFlag := errFlag || decide (b.minSlatAngle < b.maxSlatAngle ∧
      (b.slatAngle < b.minSlatAngle ∨ b.maxSlatAngle < b.slatAngle))
    -- warning if input minimum slat angle is less than that allowed by geometry
    let warnMin := decide (b.minSlatAngle < minSlatAngGeom)
    let b := if b.minSlatAngle < minSlatAngGeom then
        { b with minSlatAngle := minSlatAngGeom } else b
    -- warning if input maximum slat angle is greater than that allowed by geometry
    let warnMax := decide (maxSlatAngGeom < b.maxSlatAngle)
    let b := if maxSlatAngGeom < b.maxSlatAngle then
        { b with maxSlatAngle := maxSlatAngGeom } else b
    { blinds := blinds ++ [b], outBlindNumber := blinds.length + 1,
      errFlag := errFlag, warnedMinClamp := warnMin, warnedMaxClamp := warnMax }
  else
    { blinds := blinds, outBlindNumber := found, errFlag := false,
      warnedMinClamp := false, warnedMaxClamp := false }

/-- The geometry-derived minimum slat angle in degrees, written as the spec
states it: `asin(thickness / (thickness + separation))` converted to degrees
when the slat width exceeds the separation, zero otherwise. -/
def geometryMinSlatAngleDeg (b : WindowBlindProperties) : ℝ :=
  if b.slatWidth > b.slatSeparation then
    Real.arcsin (b.slatThickness / (b.slatThickness + b.slatSeparation)) * 180 / Real.pi
  else 0

/-- `ScreenBeamReflectanceAccounting` modes (`DoNotModel`, `ModelAsDirectBeam`,
`ModelAsDiffuse` from `DataSurfaces`). -/
inductive ScreenBeamReflectanceModel where
  | doNotModel
  | modelAsDirectBeam
  | modelAsDiffuse
deriving DecidableEq

/-- The fields of `SurfaceScreenProperties` read by `CalcScreenTransmittance`
(the computed optical outputs are returned separately, see
`ScreenOpticalResult`). -/
structure SurfaceScreenProperties where
  screenDiameterToSpacing : ℝ
  reflectCylinder : ℝ
  reflectCylinderVis : ℝ
  screenBeamReflectanceAccounting : ScreenBeamReflectanceModel

/-- The optical fields of the screen record written by a call to
`CalcScreenTransmittance`. -/
structure ScreenOpticalResult where
  bmBmTrans : ℝ
  bmBmTransVis : ℝ
  bmBmTransBack : ℝ
  bmDifTrans : ℝ
  bmDifTransVis : ℝ
  bmDifTransBack : ℝ
  reflectSolBeamFront : ℝ
  reflectVisBeamFront : ℝ
  absorpSolarBeamFront : ℝ
  reflectSolBeamBack : ℝ
  reflectVisBeamBack : ℝ
  absorpSolarBeamBack : ℝ

/-- Arguments of a `CalcScreenTransmittance` call: the surface number and the
three optional arguments. -/
structure ScreenCalcArgs where
  surfaceNum : ℕ
  phi : Option ℝ
  theta : Option ℝ
  screenNumber : Option ℕ

/-- Ambient state read by `CalcScreenTransmittance`: the solar direction
cosines, per-surface azimuth and tilt (degrees), the surface-to-screen index
map, and the screen registry.  `uninitValue` stands for the value of the
local `SurfaceTilt` on the code path where the source never assigns it
(explicit angles given together with a screen number and a nonzero surface). -/
structure ScreenEnv where
  solcos : Fin 3 → ℝ
  surfAzimuthDeg : ℕ → ℝ
  surfTiltDeg : ℕ → ℝ
  surfWindowScreenNumber : ℕ → ℕ
  screens : ℕ → SurfaceScreenProperties
  uninitValue : ℝ

/-- `Small` constant (`1.E-9`). -/
def smallNum : ℝ := 1e-9

/-- `PiOvr2`. -/
def piOvr2 : ℝ := Real.pi / 2

/-- Two-argument arctangent (`std::atan2(y, x)`), modelled by the complex
argument: range `(-π, π]`, `atan2 0 0 = 0`. -/
def atan2 (y x : ℝ) : ℝ := Complex.arg ⟨x, y⟩

/-- Normalization of the relative solar azimuth: returns the pair
(`SunAzimuthToScreenNormal`, `NormalAzimuth`). -/
def azimuthNormalization (e : ScreenEnv) (a : ScreenCalcArgs) : ℝ × ℝ :=
  match a.theta with
  | some θ =>
    let x := |θ|
    let saz := if x > Real.pi then 0 else if x > piOvr2 then Real.pi - x else x
    (saz, saz)
  | none =>
    let sunAzimuth0 := atan2 (e.solcos 0) (e.solcos 1)
    let sunAzimuth := if sunAzimuth0 < 0 then sunAzimuth0 + 2 * Real.pi else sunAzimuth0
    let surfaceAzimuth := e.surfAzimuthDeg a.surfaceNum * degToRadians
    let saz := if |sunAzimuth - surfaceAzimuth| > piOvr2 then
        |sunAzimuth - surfaceAzimuth| - piOvr2
      else |sunAzimuth - surfaceAzimuth|
    (saz, sunAzimuth - surfaceAzimuth)

/-- Normalization of the relative solar altitude: returns the pair
(`SunAltitudeToScreenNormal`, `SunAltitude`). -/
def altitudeNormalization (e : ScreenEnv) (a : ScreenCalcArgs) : ℝ × ℝ :=
  match a.phi with
  | some φ =>
    let x := |φ|
    let salt := if x > piOvr2 then Real.pi - x else x
    (salt, salt)
  | none =>
    let sunAltitude := piOvr2 - Real.arccos (e.solcos 2)
    let surfaceTilt := e.surfTiltDeg a.surfaceNum * degToRadians
    let salt0 := |sunAltitude + (surfaceTilt - piOvr2)|
    let salt := if salt0 > piOvr2 then salt0 - piOvr2 else salt0
    (salt, sunAltitude)

/-- The local `SurfaceTilt`: only assigned on the no-`Phi` path; on the
`Phi`-present path the source leaves it uninitialized. -/
def surfaceTiltOf (e : ScreenEnv) (a : ScreenCalcArgs) : ℝ :=
  match a.phi with
  | some _ => e.uninitValue
  | none => e.surfTiltDeg a.surfaceNum * degToRadians

/-- `NormalAltitude`: actual sun altitude with respect to the surface outward
normal. -/
def normalAltitudeOf (e : ScreenEnv) (a : ScreenCalcArgs) : ℝ :=
  if a.surfaceNum = 0 ∨ a.screenNumber = none then (altitudeNormalization e a).2
  else (altitudeNormalization e a).2 + (surfaceTiltOf e a - piOvr2)

/-- `IncidentAngle`: solar angle with respect to the surface outward normal,
used to decide whether the sun is in front of the screen. -/
def incidentAngleOf (e : ScreenEnv) (a : ScreenCalcArgs) : ℝ :=
  let nAlt := normalAltitudeOf e a
  let nAz := (azimuthNormalization e a).2
  if nAlt ≠ 0 ∧ nAz ≠ 0 then
    Real.arccos (Real.sin nAlt / (Real.tan nAz * Real.tan nAlt / Real.sin nAz))
  else if nAlt ≠ 0 ∧ nAz = 0 then nAlt
  else if nAlt = 0 ∧ nAz ≠ 0 then nAz
  else 0

/-- Vertical component `TransYDir` of the direct beam transmittance. -/
def transYDirOf (γ saz salt : ℝ) : ℝ :=
  let beta := piOvr2 - saz
  if beta > smallNum then
    if |salt - piOvr2| > smallNum then
      let alphaDblPrime := Real.arctan (Real.tan salt / Real.cos saz)
      max 0 (1 - γ * (Real.cos alphaDblPrime +
        Real.sin alphaDblPrime * Real.tan salt * Real.sqrt (1 + (1 / Real.tan beta) ^ 2)))
    else 0
  else 0

/-- Horizontal component `TransXDir` of the direct beam transmittance. -/
def transXDirOf (γ saz salt : ℝ) : ℝ :=
  let cosMu := Real.sqrt (Real.cos salt ^ 2 * Real.cos saz ^ 2 + Real.sin salt ^ 2)
  if cosMu > smallNum then
    let epsln := Real.arccos (Real.cos salt * Real.cos saz / cosMu)
    let eta := piOvr2 - epsln
    if Real.cos epsln ≠ 0 then
      let muPrime := Real.arctan (Real.tan (Real.arccos cosMu) / Real.cos epsln)
      if eta ≠ 0 then
        max 0 (1 - γ * (Real.cos muPrime +
          Real.sin muPrime * Real.tan (Real.arccos cosMu) *
            Real.sqrt (1 + (1 / Real.tan eta) ^ 2)))
      else 0
    else 0
  else 1 - γ

/-- `Tdirect`: beam transmittance through the open screen area. -/
def tDirectOf (γ saz salt : ℝ) : ℝ :=
  max 0 (transXDirOf γ saz salt * transYDirOf γ saz salt)

/-- The grazing guard of the scattered-transmittance computation: the
normalized azimuth or altitude is within `Small` of `π/2`. -/
def grazingIncidence (saz salt : ℝ) : Prop :=
  |saz - piOvr2| < smallNum ∨ |salt - piOvr2| < smallNum

instance grazingIncidenceDec (saz salt : ℝ) : Decidable (grazingIncidence saz salt) := by
  unfold grazingIncidence; infer_instance

/-- `Tscattered` before the final clamp: empirical scattered transmittance of
the reflecting screen material, forced to zero at grazing incidence. -/
def tScatteredOf (γ ρ saz salt : ℝ) : ℝ :=
  if grazingIncidence saz salt then 0
  else
    let deltaMax := 89.7 - 10 * γ / 0.16
    let delta := Real.sqrt ((saz / degToRadians) ^ 2 + (salt / degToRadians) ^ 2)
    let tScatterMax := 0.0229 * γ + 0.2971 * ρ - 0.03624 * γ ^ 2 + 0.04763 * ρ ^ 2 -
      0.44416 * γ * ρ
    let exponentInterior := -(|delta - deltaMax| ^ (2 : ℝ)) / 600
    let exponentExterior := -(|delta - deltaMax| ^ (2.5 : ℝ)) / 600
    let peakToPlateau := 1 / (0.2 * (1 - γ) * ρ)
    if delta > deltaMax then
      0.2 * (1 - γ) * ρ * tScatterMax * (1 + (peakToPlateau - 1) * Real.exp exponentExterior) -
        (0.2 * (1 - γ) * ρ * tScatterMax) * max 0 ((delta - deltaMax) / (90 - deltaMax))
    else
      0.2 * (1 - γ) * ρ * tScatterMax * (1 + (peakToPlateau - 1) * Real.exp exponentInterior)

/-- The final field-store block of `CalcScreenTransmittance` (reflectance
accounting, front/back selection by incident angle, and the energy-balance
reflectance/absorptance fields). -/
def screenStore (mode : ScreenBeamReflectanceModel) (inc : ℝ)
    (tdir tscat tscatVis ρ ρvis : ℝ) : ScreenOpticalResult :=
  let bm : ℝ × ℝ × ℝ × ℝ × ℝ :=
    match mode with
    | .doNotModel =>
      if |inc| ≤ piOvr2 then (tdir, tdir, 0, 0, 0) else (0, 0, tdir, 0, 0)
    | .modelAsDirectBeam =>
      if |inc| ≤ piOvr2 then (tdir + tscat, tdir + tscatVis, 0, 0, 0)
      else (0, 0, tdir + tscat, 0, 0)
    | .modelAsDiffuse =>
      if |inc| ≤ piOvr2 then (tdir, tdir, 0, tscat, tscatVis)
      else (0, 0, tdir, tscat, tscatVis)
  let tscat := bm.2.2.2.1
  let tscatVis := bm.2.2.2.2
  if |inc| ≤ piOvr2 then
    { bmBmTrans := bm.1, bmBmTransVis := bm.2.1, bmBmTransBack := bm.2.2.1,
      bmDifTrans := tscat, bmDifTransVis := tscatVis, bmDifTransBack := 0,
      reflectSolBeamFront := max 0 (ρ * (1 - tdir) - tscat),
      reflectVisBeamFront := max 0 (ρvis * (1 - tdir) - tscatVis),
      absorpSolarBeamFront := max 0 ((1 - tdir) * (1 - ρ)),
      reflectSolBeamBack := 0, reflectVisBeamBack := 0, absorpSolarBeamBack := 0 }
  else
    { bmBmTrans := bm.1, bmBmTransVis := bm.2.1, bmBmTransBack := bm.2.2.1,
      bmDifTrans := 0, bmDifTransVis := 0, bmDifTransBack := tscat,
      reflectSolBeamBack := max 0 (ρ * (1 - tdir) - tscat),
      reflectVisBeamBack := max 0 (ρvis * (1 - tdir) - tscatVis),
      absorpSolarBeamBack := max 0 ((1 - tdir) * (1 - ρ)),
      reflectSolBeamFront := 0, reflectVisBeamFront := 0, absorpSolarBeamFront := 0 }

/-- The computation performed by a non-fatal `CalcScreenTransmittance` call:
the optical fields stored into the screen record. -/
def calcScreenTransmittanceBody (e : ScreenEnv) (a : ScreenCalcArgs) :
    ScreenOpticalResult :=
  let scNum := match a.screenNumber with
    | some n => n
    | none => e.surfWindowScreenNumber a.surfaceNum
  let saz := (azimuthNormalization e a).1
  let salt := (altitudeNormalization e a).1
  let γ := (e.screens scNum).screenDiameterToSpacing
  let ρ := (e.screens scNum).reflectCylinder
  let ρvis := (e.screens scNum).reflectCylinderVis
  let tdir := tDirectOf γ saz salt
  let tscat := max 0 (tScatteredOf γ ρ saz salt)
  let tscatVis := max 0 (tScatteredOf γ ρvis saz salt)
  screenStore (e.screens scNum).screenBeamReflectanceAccounting
    (incidentAngleOf e a) tdir tscat tscatVis ρ ρvis

/-- The fatal diagnostic issued when a screen number is supplied without the
explicit angles. -/
def screenFatalMessage : String :=
  "Syntax error, optional arguments Theta and Phi must be present when optional ScreenNumber is used."

/-- `CalcScreenTransmittance`: the precondition check on the optional
arguments, then the optical computation; a fatal error halts the program
before any result is stored. -/
def calcScreenTransmittance (e : ScreenEnv) (a : ScreenCalcArgs) :
    Except String ScreenOpticalResult :=
  match a.screenNumber with
  | some _ =>
    if a.theta = none ∨ a.phi = none then Except.error screenFatalMessage
    else Except.ok (calcScreenTransmittanceBody e a)
  | none => Except.ok (calcScreenTransmittanceBody e a)

/-!  Concrete fixtures used to exercise the definitions at specific inputs. -/

/-- A sample material of group `g` with benign physical fields. -/
def mkMatSample (g : ℤ) : MaterialProperties :=
  { group := g, absorpVisible := 1/10, absorpSolar := 1/10, absorpThermal := 9/10,
    absorpThermalFront := 9/10, absorpThermalBack := 9/10, thickness := 1/100,
    gasType := fun _ => 0, gasFract := fun _ => 0, solarDiffusing := false,
    blindDataPtr := 0, roughness := 3 }

/-- A sample material registry: 1 = opaque, 2 = eco roof, 3 = glass,
4 = air gas, 5 = blind, 6 = argon gas (a different gas type than 4). -/
def matSample : ℕ → MaterialProperties := fun m =>
  if m = 1 then mkMatSample RegularMaterial
  else if m = 2 then mkMatSample EcoRoof
  else if m = 3 then mkMatSample WindowGlass
  else if m = 4 then
    { mkMatSample WindowGas with gasType := fun i => if i = 0 then 1 else 0,
                                 gasFract := fun i => if i = 0 then 1 else 0 }
  else if m = 5 then mkMatSample WindowBlind
  else if m = 6 then
    { mkMatSample WindowGas with gasType := fun i => if i = 0 then 2 else 0,
                                 gasFract := fun i => if i = 0 then 1 else 0 }
  else mkMatSample RegularMaterial

/-- A construction with the given layer-reference list. -/
def mkConstruction (ls : List ℕ) : ConstructionData :=
  { name := "c", totLayers := ls.length, layerPoint := fun k => ls.getD (k - 1) 0,
    windowTypeBSDF := false, windowTypeEQL := false, isUsed := false, d := default }

/-- Opaque layer over an interior eco-roof layer. -/
def cstRegEco : ConstructionData := mkConstruction [1, 2]

/-- Eco-roof outermost layer with a second eco-roof layer inside. -/
def cstEcoEco : ConstructionData := mkConstruction [2, 1, 2]

/-- A single glass layer. -/
def cstGlass1 : ConstructionData := mkConstruction [3]

/-- Between-glass blind with mismatched gas fills. -/
def cstBGMismatch : ConstructionData := mkConstruction [3, 4, 5, 6, 3]

/-- A one-construction registry. -/
def stateSample : ConstrState :=
  { constructs := [mkConstruction [1, 1, 2]],
    nominalRforNominalUCalculation := [3/2], nominalU := [2/3] }

/-- A sample fixed-slat blind. -/
def blindSample : WindowBlindProperties :=
  { name := "B", slatAngleType := FixedSlats, slatWidth := 2, slatSeparation := 1,
    slatThickness := 1/10, slatAngle := 45, minSlatAngle := 10, maxSlatAngle := 170 }

/-- A sample screen environment: every screen has diameter-to-spacing `1/2`,
cylinder reflectance `1/2`, and the `DoNotModel` accounting mode. -/
def screenEnvSample : ScreenEnv :=
  { solcos := fun _ => 0, surfAzimuthDeg := fun _ => 0, surfTiltDeg := fun _ => 0,
    surfWindowScreenNumber := fun _ => 1,
    screens := fun _ => { screenDiameterToSpacing := 1/2, reflectCylinder := 1/2,
                          reflectCylinderVis := 1/2,
                          screenBeamReflectanceAccounting := .doNotModel },
    uninitValue := 0 }

/-- A call with explicit on-axis angles and an explicit screen number. -/
def argsNormalIncidence : ScreenCalcArgs :=
  { surfaceNum := 0, phi := some 0, theta := some 0, screenNumber := some 1 }

/-- A call supplying a screen number but no angles. -/
def argsMissingAngles : ScreenCalcArgs :=
  { surfaceNum := 0, phi := none, theta := none, screenNumber := some 1 }

end

/-!  Theorems. -/

theorem piOvr2_nonneg : 0 ≤ piOvr2 := by
  unfold piOvr2; positivity

theorem tDirectOf_nonneg (γ saz salt : ℝ) : 0 ≤ tDirectOf γ saz salt :=
  le_max_left 0 _

theorem screenStore_nonneg (mode : ScreenBeamReflectanceModel)
    (inc tdir tscat tscatVis ρ ρvis : ℝ) (ht : 0 ≤ tdir) (hs : 0 ≤ tscat)
    (hv : 0 ≤ tscatVis) :
    0 ≤ (screenStore mode inc tdir tscat tscatVis ρ ρvis).bmBmTrans ∧
    0 ≤ (screenStore mode inc tdir tscat tscatVis ρ ρvis).bmBmTransVis ∧
    0 ≤ (screenStore mode inc tdir tscat tscatVis ρ ρvis).bmBmTransBack ∧
    0 ≤ (screenStore mode inc tdir tscat tscatVis ρ ρvis).bmDifTrans ∧
    0 ≤ (screenStore mode inc tdir tscat tscatVis ρ ρvis).bmDifTransVis ∧
    0 ≤ (screenStore mode inc tdir tscat tscatVis ρ ρvis).bmDifTransBack ∧
    0 ≤ (screenStore mode inc tdir tscat tscatVis ρ ρvis).reflectSolBeamFront ∧
    0 ≤ (screenStore mode inc tdir tscat tscatVis ρ ρvis).reflectVisBeamFront ∧
    0 ≤ (screenStore mode inc tdir tscat tscatVis ρ ρvis).absorpSolarBeamFront ∧
    0 ≤ (screenStore mode inc tdir tscat tscatVis ρ ρvis).reflectSolBeamBack ∧
    0 ≤ (screenStore mode inc tdir tscat tscatVis ρ ρvis).reflectVisBeamBack ∧
    0 ≤ (screenStore mode inc tdir tscat tscatVis ρ ρvis).absorpSolarBeamBack := by
  cases mode <;> by_cases h : |inc| ≤ piOvr2 <;>
    simp only [screenStore, h, if_true, if_false, ite_true, ite_false] <;>
    refine ⟨?_, ?_, ?_, ?_, ?_, ?_, ?_, ?_, ?_, ?_, ?_, ?_⟩ <;>
    first
      | exact le_rfl
      | exact ht
      | exact hs
      | exact hv
      | exact add_nonneg ht hs
      | exact add_nonneg ht hv
      | exact le_max_left 0 _

/-- C9: after every (non-fatal) call to `CalcScreenTransmittance`, every
optical result stored in the screen record — beam-beam and beam-diffuse
transmittance, reflectance and absorptance, in the solar and visible bands,
on the front and back sides — is non-negative. -/
theorem c9_screen_results_nonneg (e : ScreenEnv) (a : ScreenCalcArgs) :
    0 ≤ (calcScreenTransmittanceBody e a).bmBmTrans ∧
    0 ≤ (calcScreenTransmittanceBody e a).bmBmTransVis ∧
    0 ≤ (calcScreenTransmittanceBody e a).bmBmTransBack ∧
    0 ≤ (calcScreenTransmittanceBody e a).bmDifTrans ∧
    0 ≤ (calcScreenTransmittanceBody e a).bmDifTransVis ∧
    0 ≤ (calcScreenTransmittanceBody e a).bmDifTransBack ∧
    0 ≤ (calcScreenTransmittanceBody e a).reflectSolBeamFront ∧
    0 ≤ (calcScreenTransmittanceBody e a).reflectVisBeamFront ∧
    0 ≤ (calcScreenTransmittanceBody e a).absorpSolarBeamFront ∧
    0 ≤ (calcScreenTransmittanceBody e a).reflectSolBeamBack ∧
    0 ≤ (calcScreenTransmittanceBody e a).reflectVisBeamBack ∧
    0 ≤ (calcScreenTransmittanceBody e a).absorpSolarBeamBack := by
  unfold calcScreenTransmittanceBody
  exact screenStore_nonneg _ _ _ _ _ _ _ (tDirectOf_nonneg _ _ _)
    (le_max_left 0 _) (le_max_left 0 _)

theorem screenStore_back_zero (mode : ScreenBeamReflectanceModel)
    (inc tdir tscat tscatVis ρ ρvis : ℝ) (h : |inc| ≤ piOvr2) :
    (screenStore mode inc tdir tscat tscatVis ρ ρvis).bmBmTransBack = 0 ∧
    (screenStore mode inc tdir tscat tscatVis ρ ρvis).bmDifTransBack = 0 ∧
    (screenStore mode inc tdir tscat tscatVis ρ ρvis).reflectSolBeamBack = 0 ∧
    (screenStore mode inc tdir tscat tscatVis ρ ρvis).reflectVisBeamBack = 0 ∧
    (screenStore mode inc tdir tscat tscatVis ρ ρvis).absorpSolarBeamBack = 0 := by
  cases mode <;> simp [screenStore, h]

theorem screenStore_front_zero (mode : ScreenBeamReflectanceModel)
    (inc tdir tscat tscatVis ρ ρvis : ℝ) (h : ¬ |inc| ≤ piOvr2) :
    (screenStore mode inc tdir tscat tscatVis ρ ρvis).bmBmTrans = 0 ∧
    (screenStore mode inc tdir tscat tscatVis ρ ρvis).bmDifTrans = 0 ∧
    (screenStore mode inc tdir tscat tscatVis ρ ρvis).reflectSolBeamFront = 0 ∧
    (screenStore mode inc tdir tscat tscatVis ρ ρvis).reflectVisBeamFront = 0 ∧
    (screenStore mode inc tdir tscat tscatVis ρ ρvis).absorpSolarBeamFront = 0 := by
  cases mode <;> simp [screenStore, h]

/-- C10: every call populates exactly one side of the screen record — when
the absolute incidence angle is at most `π/2` all back-side fields are set to
zero, when it exceeds `π/2` the corresponding front-side fields are set to
zero, and after a single call the front and back field groups are never both
nonzero. -/
theorem c10_one_side_populated (e : ScreenEnv) (a : ScreenCalcArgs) :
    ((|incidentAngleOf e a| ≤ piOvr2) →
      (calcScreenTransmittanceBody e a).bmBmTransBack = 0 ∧
      (calcScreenTransmittanceBody e a).bmDifTransBack = 0 ∧
      (calcScreenTransmittanceBody e a).reflectSolBeamBack = 0 ∧
      (calcScreenTransmittanceBody e a).reflectVisBeamBack = 0 ∧
      (calcScreenTransmittanceBody e a).absorpSolarBeamBack = 0) ∧
    ((piOvr2 < |incidentAngleOf e a|) →
      (calcScreenTransmittanceBody e a).bmBmTrans = 0 ∧
      (calcScreenTransmittanceBody e a).bmDifTrans = 0 ∧
      (calcScreenTransmittanceBody e a).reflectSolBeamFront = 0 ∧
      (calcScreenTransmittanceBody e a).reflectVisBeamFront = 0 ∧
      (calcScreenTransmittanceBody e a).absorpSolarBeamFront = 0) ∧
    ¬ (((calcScreenTransmittanceBody e a).bmBmTrans ≠ 0 ∨
        (calcScreenTransmittanceBody e a).bmDifTrans ≠ 0 ∨
        (calcScreenTransmittanceBody e a).reflectSolBeamFront ≠ 0 ∨
        (calcScreenTransmittanceBody e a).reflectVisBeamFront ≠ 0 ∨
        (calcScreenTransmittanceBody e a).absorpSolarBeamFront ≠ 0) ∧
       ((calcScreenTransmittanceBody e a).bmBmTransBack ≠ 0 ∨
        (calcScreenTransmittanceBody e a).bmDifTransBack ≠ 0 ∨
        (calcScreenTransmittanceBody e a).reflectSolBeamBack ≠ 0 ∨
        (calcScreenTransmittanceBody e a).reflectVisBeamBack ≠ 0 ∨
        (calcScreenTransmittanceBody e a).absorpSolarBeamBack ≠ 0)) := by
  by_cases h : |incidentAngleOf e a| ≤ piOvr2
  · have hz : (calcScreenTransmittanceBody e a).bmBmTransBack = 0 ∧
        (calcScreenTransmittanceBody e a).bmDifTransBack = 0 ∧
        (calcScreenTransmittanceBody e a).reflectSolBeamBack = 0 ∧
        (calcScreenTransmittanceBody e a).reflectVisBeamBack = 0 ∧
        (calcScreenTransmittanceBody e a).absorpSolarBeamBack = 0 := by
      unfold calcScreenTransmittanceBody
      exact screenStore_back_zero _ _ _ _ _ _ _ h
    refine ⟨fun _ => hz, fun hlt => absurd hlt (not_lt.mpr h), fun hcon => ?_⟩
    rcases hcon with ⟨-, hb⟩
    rcases hb with hb | hb | hb | hb | hb
    · exact hb hz.1
    · exact hb hz.2.1
    · exact hb hz.2.2.1
    · exact hb hz.2.2.2.1
    · exact hb hz.2.2.2.2
  · have hz : (calcScreenTransmittanceBody e a).bmBmTrans = 0 ∧
        (calcScreenTransmittanceBody e a).bmDifTrans = 0 ∧
        (calcScreenTransmittanceBody e a).reflectSolBeamFront = 0 ∧
        (calcScreenTransmittanceBody e a).reflectVisBeamFront = 0 ∧
        (calcScreenTransmittanceBody e a).absorpSolarBeamFront = 0 := by
      unfold calcScreenTransmittanceBody
      exact screenStore_front_zero _ _ _ _ _ _ _ h
    refine ⟨fun hle => absurd hle h, fun _ => hz, fun hcon => ?_⟩
    rcases hcon with ⟨hf, -⟩
    rcases hf with hf | hf | hf | hf | hf
    · exact hf hz.1
    · exact hf hz.2.1
    · exact hf hz.2.2.1
    · exact hf hz.2.2.2.1
    · exact hf hz.2.2.2.2

/-- C7: a call to `CalcScreenTransmittance` that supplies the optional
`ScreenNumber` but omits `Theta` or `Phi` halts with the fatal error before
computing or storing any optical result. -/
theorem c7_screen_number_without_angles_is_fatal (e : ScreenEnv)
    (a : ScreenCalcArgs) (n : ℕ) (hs : a.screenNumber = some n)
    (hm : a.theta = none ∨ a.phi = none) :
    calcScreenTransmittance e a = Except.error screenFatalMessage := by
  unfold calcScreenTransmittance
  rw [hs]
  simp [hm]

theorem c7_witness :
    argsMissingAngles.screenNumber = some 1 ∧
    (argsMissingAngles.theta = none ∨ argsMissingAngles.phi = none) ∧
    calcScreenTransmittance screenEnvSample argsMissingAngles =
      Except.error screenFatalMessage :=
  ⟨rfl, Or.inl rfl,
    c7_screen_number_without_angles_is_fatal screenEnvSample argsMissingAngles 1
      rfl (Or.inl rfl)⟩

theorem piOvr2_pos : 0 < piOvr2 := by
  unfold piOvr2; positivity

theorem smallNum_lt_piOvr2 : smallNum < piOvr2 := by
  unfold smallNum piOvr2
  nlinarith [Real.pi_gt_three]

theorem smallNum_lt_one : smallNum < 1 := by
  norm_num [smallNum]

theorem azimuthNormalization_theta_zero (e : ScreenEnv) (sn : ℕ) (φ : Option ℝ)
    (scr : Option ℕ) :
    azimuthNormalization e ⟨sn, φ, some 0, scr⟩ = (0, 0) := by
  unfold azimuthNormalization
  dsimp only
  rw [abs_zero, if_neg (not_lt.mpr Real.pi_pos.le), if_neg (not_lt.mpr piOvr2_nonneg)]

theorem altitudeNormalization_phi_zero (e : ScreenEnv) (sn : ℕ) (θ : Option ℝ)
    (scr : Option ℕ) :
    altitudeNormalization e ⟨sn, some 0, θ, scr⟩ = (0, 0) := by
  unfold altitudeNormalization
  dsimp only
  rw [abs_zero, if_neg (not_lt.mpr piOvr2_nonneg)]

theorem incidentAngle_on_axis (e : ScreenEnv) (k : ℕ) :
    incidentAngleOf e ⟨0, some 0, some 0, some k⟩ = 0 := by
  unfold incidentAngleOf normalAltitudeOf
  dsimp only
  rw [if_pos (Or.inl rfl), azimuthNormalization_theta_zero,
    altitudeNormalization_phi_zero]
  simp

theorem c10_witness :
    |incidentAngleOf screenEnvSample argsNormalIncidence| ≤ piOvr2 ∧
    ((calcScreenTransmittanceBody screenEnvSample argsNormalIncidence).bmBmTransBack = 0 ∧
     (calcScreenTransmittanceBody screenEnvSample argsNormalIncidence).bmDifTransBack = 0 ∧
     (calcScreenTransmittanceBody screenEnvSample argsNormalIncidence).reflectSolBeamBack = 0 ∧
     (calcScreenTransmittanceBody screenEnvSample argsNormalIncidence).reflectVisBeamBack = 0 ∧
     (calcScreenTransmittanceBody screenEnvSample argsNormalIncidence).absorpSolarBeamBack = 0) :=
  have h : |incidentAngleOf screenEnvSample argsNormalIncidence| ≤ piOvr2 := by
    rw [show argsNormalIncidence = (⟨0, some 0, some 0, some 1⟩ : ScreenCalcArgs) from rfl,
      incidentAngle_on_axis, abs_zero]
    exact piOvr2_nonneg
  ⟨h, (c10_one_side_populated screenEnvSample argsNormalIncidence).1 h⟩

theorem transYDirOf_on_axis (γ : ℝ) : transYDirOf γ 0 0 = max 0 (1 - γ) := by
  unfold transYDirOf
  dsimp only
  rw [sub_zero, if_pos smallNum_lt_piOvr2, zero_sub, abs_neg,
    abs_of_nonneg piOvr2_nonneg, if_pos smallNum_lt_piOvr2]
  simp [Real.tan_zero, Real.cos_zero, Real.sin_zero, Real.arctan_zero]

theorem transXDirOf_on_axis (γ : ℝ) : transXDirOf γ 0 0 = max 0 (1 - γ) := by
  unfold transXDirOf
  dsimp only
  simp only [Real.cos_zero, Real.sin_zero, one_pow, mul_one, zero_pow, add_zero,
    ne_eq, OfNat.ofNat_ne_zero, not_false_eq_true, Real.sqrt_one, div_one,
    Real.arccos_one, sub_zero, Real.tan_zero, zero_div, Real.arctan_zero]
  rw [if_pos smallNum_lt_one, if_pos one_ne_zero, if_pos (ne_of_gt piOvr2_pos)]
  simp

theorem tDirectOf_on_axis (γ : ℝ) : tDirectOf γ 0 0 = max 0 (1 - γ) ^ 2 := by
  unfold tDirectOf
  rw [transXDirOf_on_axis, transYDirOf_on_axis,
    max_eq_right (mul_nonneg (le_max_left 0 _) (le_max_left 0 _)), pow_two]

theorem tScatteredOf_grazing (γ ρ saz salt : ℝ) (h : grazingIncidence saz salt) :
    tScatteredOf γ ρ saz salt = 0 := by
  unfold tScatteredOf
  rw [if_pos h]

theorem not_grazing_on_axis : ¬ grazingIncidence 0 0 := by
  unfold grazingIncidence
  rw [zero_sub, abs_neg, abs_of_nonneg piOvr2_nonneg]
  push_neg
  exact ⟨smallNum_lt_piOvr2.le, smallNum_lt_piOvr2.le⟩

theorem screenStore_doNotModel_bmBmTrans (inc tdir tscat tscatVis ρ ρvis : ℝ)
    (h : |inc| ≤ piOvr2) :
    (screenStore .doNotModel inc tdir tscat tscatVis ρ ρvis).bmBmTrans = tdir := by
  simp [screenStore, h]

/-- C3 (counterexample): for a screen with diameter-to-spacing `Γ = 1/2`, the
on-axis call (`Phi = 0`, `Theta = 0`) stores a beam-beam transmittance of
`(1 − Γ)² = 1/4`, not `1 − Γ = 1/2` as the claim states. -/
theorem c3_counterexample :
    (calcScreenTransmittanceBody screenEnvSample argsNormalIncidence).bmBmTrans ≠
      1 - (screenEnvSample.screens 1).screenDiameterToSpacing := by
  have h : |incidentAngleOf screenEnvSample (⟨0, some 0, some 0, some 1⟩ : ScreenCalcArgs)| ≤
      piOvr2 := by
    rw [incidentAngle_on_axis, abs_zero]; exact piOvr2_nonneg
  rw [show argsNormalIncidence = (⟨0, some 0, some 0, some 1⟩ : ScreenCalcArgs) from rfl]
  unfold calcScreenTransmittanceBody
  dsimp only
  rw [azimuthNormalization_theta_zero, altitudeNormalization_phi_zero]
  rw [show (screenEnvSample.screens 1).screenBeamReflectanceAccounting =
        ScreenBeamReflectanceModel.doNotModel from rfl,
      show (screenEnvSample.screens 1).screenDiameterToSpacing = 1/2 from rfl]
  rw [screenStore_doNotModel_bmBmTrans _ _ _ _ _ _ h, tDirectOf_on_axis]
  norm_num

/-- C3 (amended): an on-axis call (`Phi = 0`, `Theta = 0`) normalizes both
relative angles to zero and yields direct open-area transmittance
`max 0 (1 − Γ) ^ 2` — the product of the two identical per-axis open-area
factors, not `1 − Γ` — while the scattered component is forced to zero
exactly under the grazing guard (normalized azimuth or altitude within
`Small` of 90°), a guard that does not hold at normal incidence. -/
theorem c3_on_axis_direct_transmittance (e : ScreenEnv) (sn k : ℕ) (φ θ : ℝ) :
    (azimuthNormalization e ⟨sn, some φ, some 0, some k⟩).1 = 0 ∧
    (altitudeNormalization e ⟨sn, some 0, some θ, some k⟩).1 = 0 ∧
    (∀ γ : ℝ, tDirectOf γ 0 0 = max 0 (1 - γ) ^ 2) ∧
    (∀ γ ρ saz salt : ℝ, grazingIncidence saz salt → tScatteredOf γ ρ saz salt = 0) ∧
    ¬ grazingIncidence 0 0 := by
  refine ⟨?_, ?_, tDirectOf_on_axis, tScatteredOf_grazing, not_grazing_on_axis⟩
  · rw [azimuthNormalization_theta_zero]
  · rw [altitudeNormalization_phi_zero]

theorem c3_witness :
    grazingIncidence piOvr2 0 ∧ tScatteredOf 1 1 piOvr2 0 = 0 :=
  have hg : grazingIncidence piOvr2 0 :=
    Or.inl (by rw [sub_self, abs_zero]; norm_num [smallNum])
  ⟨hg, (c3_on_axis_direct_transmittance screenEnvSample 0 1 0 0).2.2.2.1 1 1 piOvr2 0 hg⟩

theorem blindAt_concat (l : List WindowBlindProperties) (x : WindowBlindProperties) :
    blindAt (l ++ [x]) (l.length + 1) = x := by
  unfold blindAt
  simp

theorem div_degToRadians (x : ℝ) : x / degToRadians = x * 180 / Real.pi := by
  unfold degToRadians
  rw [div_div_eq_mul_div]

/-- C8: when `AddVariableSlatBlind` creates a new variable-slat clone, the
geometry-derived minimum slat angle is `asin(thickness/(thickness+separation))`
in degrees when slat width exceeds separation and zero otherwise, the
geometry maximum is `180°` minus that minimum, a declared minimum below the
geometry minimum (resp. maximum above the geometry maximum) is clamped to the
geometry bound with a warning, and the error flag reflects only the two
declared-angle consistency checks, independent of the clamping. -/
theorem c8_variable_slat_clone_angles (blinds : List WindowBlindProperties) (i : ℕ)
    (hnf : findItemInList ("~" ++ (blindAt blinds i).name)
      (blinds.map (fun b => b.name)) = 0) :
    (blindAt (addVariableSlatBlind blinds i).blinds
        (addVariableSlatBlind blinds i).outBlindNumber).minSlatAngle =
      (if (blindAt blinds i).minSlatAngle < geometryMinSlatAngleDeg (blindAt blinds i)
       then geometryMinSlatAngleDeg (blindAt blinds i)
       else (blindAt blinds i).minSlatAngle) ∧
    (blindAt (addVariableSlatBlind blinds i).blinds
        (addVariableSlatBlind blinds i).outBlindNumber).maxSlatAngle =
      (if 180 - geometryMinSlatAngleDeg (blindAt blinds i) < (blindAt blinds i).maxSlatAngle
       then 180 - geometryMinSlatAngleDeg (blindAt blinds i)
       else (blindAt blinds i).maxSlatAngle) ∧
    ((addVariableSlatBlind blinds i).errFlag = true ↔
      ((blindAt blinds i).maxSlatAngle < (blindAt blinds i).minSlatAngle ∨
       ((blindAt blinds i).minSlatAngle < (blindAt blinds i).maxSlatAngle ∧
        ((blindAt blinds i).slatAngle < (blindAt blinds i).minSlatAngle ∨
         (blindAt blinds i).maxSlatAngle < (blindAt blinds i).slatAngle)))) ∧
    ((addVariableSlatBlind blinds i).warnedMinClamp = true ↔
      (blindAt blinds i).minSlatAngle < geometryMinSlatAngleDeg (blindAt blinds i)) ∧
    ((addVariableSlatBlind blinds i).warnedMaxClamp = true ↔
      180 - geometryMinSlatAngleDeg (blindAt blinds i) < (blindAt blinds i).maxSlatAngle) := by
  have hconv : ∀ x : ℝ, x / degToRadians = x * 180 / Real.pi := div_degToRadians
  unfold addVariableSlatBlind
  rw [if_pos hnf]
  dsimp only
  rw [blindAt_concat]
  simp only [geometryMinSlatAngleDeg, hconv,
    apply_ite WindowBlindProperties.minSlatAngle,
    apply_ite WindowBlindProperties.maxSlatAngle,
    Bool.or_eq_true, decide_eq_true_eq, ite_self]
  simp

theorem c8_witness :
    findItemInList ("~" ++ (blindAt [blindSample] 1).name)
      (([blindSample]).map (fun b => b.name)) = 0 ∧
    (blindAt (addVariableSlatBlind [blindSample] 1).blinds
        (addVariableSlatBlind [blindSample] 1).outBlindNumber).minSlatAngle =
      (if (blindAt [blindSample] 1).minSlatAngle <
          geometryMinSlatAngleDeg (blindAt [blindSample] 1)
       then geometryMinSlatAngleDeg (blindAt [blindSample] 1)
       else (blindAt [blindSample] 1).minSlatAngle) :=
  have h : findItemInList ("~" ++ (blindAt [blindSample] 1).name)
      (([blindSample]).map (fun b => b.name)) = 0 := by decide
  ⟨h, (c8_variable_slat_clone_angles [blindSample] 1 h).1⟩

theorem caspBaseDerived_typeIsWindow (mat : ℕ → MaterialProperties)
    (cst : ConstructionData) :
    (caspBaseDerived mat cst).typeIsWindow = anyWindowLayer mat cst := rfl

theorem caspTail_typeIsWindow (mat : ℕ → MaterialProperties) (cst : ConstructionData)
    (il : ℕ) (d : ConstrDerived) (ef : Bool) :
    ((caspTail mat cst il d ef).1).d.typeIsWindow = d.typeIsWindow := by
  unfold caspTail dTail
  dsimp only
  simp only [apply_ite ConstrDerived.typeIsWindow, ite_self]

theorem caspWindowThermal_typeIsWindow (mat : ℕ → MaterialProperties)
    (cst : ConstructionData) (il imn : ℕ) (d : ConstrDerived) :
    (caspWindowThermal mat cst il imn d).typeIsWindow = d.typeIsWindow := by
  unfold caspWindowThermal
  dsimp only
  simp only [apply_ite ConstrDerived.typeIsWindow, ite_self]

theorem caspWindow_typeIsWindow (mat : ℕ → MaterialProperties) (bw : ℕ → ℚ)
    (cst : ConstructionData) (il imn : ℕ) (d : ConstrDerived) (ef : Bool) :
    ((caspWindow mat bw cst il imn d ef).1).d.typeIsWindow = d.typeIsWindow := by
  unfold caspWindow
  dsimp only
  split
  · rfl
  · split
    · rfl
    · rw [caspTail_typeIsWindow, caspWindowThermal_typeIsWindow]

theorem casp_typeIsWindow_eq_anyWindowLayer (mat : ℕ → MaterialProperties)
    (bw : ℕ → ℚ) (cst : ConstructionData) (ef : Bool)
    (h1 : cst.layerPoint cst.totLayers ≠ 0) (h2 : cst.totLayers ≠ 0)
    (h3 : cst.layerPoint 1 ≠ 0) :
    ((checkAndSetConstructionProperties mat bw cst ef).1).d.typeIsWindow =
      anyWindowLayer mat cst := by
  unfold checkAndSetConstructionProperties
  dsimp only
  rw [if_neg h1, if_neg h2, if_neg h1, if_neg h3]
  by_cases hW : (caspBaseDerived mat cst).typeIsWindow = true
  · rw [if_pos hW, caspWindow_typeIsWindow, caspBaseDerived_typeIsWindow]
  · rw [if_neg hW, caspTail_typeIsWindow]
    simp only [apply_ite ConstrDerived.typeIsWindow, ite_self,
      caspBaseDerived_typeIsWindow]

/-- C2: for every construction with at least one layer and valid
innermost/outermost layer references, `CheckAndSetConstructionProperties`
sets `TypeIsWindow` to true exactly when some nonzero layer's material group
lies in the window-eligible set; in particular a single-layer construction is
classified as a window exactly when its layer's group lies in that set. -/
theorem c2_window_classification (mat : ℕ → MaterialProperties) (bw : ℕ → ℚ)
    (cst : ConstructionData) (ef : Bool)
    (h1 : cst.layerPoint cst.totLayers ≠ 0) (h2 : cst.totLayers ≠ 0)
    (h3 : cst.layerPoint 1 ≠ 0) :
    (((checkAndSetConstructionProperties mat bw cst ef).1).d.typeIsWindow = true ↔
      ∃ L ∈ layerIdx cst.totLayers, cst.layerPoint L ≠ 0 ∧
        windowEligible (mat (cst.layerPoint L)).group) ∧
    (cst.totLayers = 1 →
      (((checkAndSetConstructionProperties mat bw cst ef).1).d.typeIsWindow = true ↔
        windowEligible (mat (cst.layerPoint 1)).group)) := by
  have hmain := casp_typeIsWindow_eq_anyWindowLayer mat bw cst ef h1 h2 h3
  constructor
  · rw [hmain]
    simp [anyWindowLayer, List.any_eq_true]
  · intro hn1
    rw [hmain]
    have h1' : cst.layerPoint 1 ≠ 0 := h3
    simp [anyWindowLayer, List.any_eq_true, hn1, layerIdx, List.range'_one, h1']

theorem c2_witness :
    cstGlass1.layerPoint cstGlass1.totLayers ≠ 0 ∧
    cstGlass1.totLayers ≠ 0 ∧
    cstGlass1.layerPoint 1 ≠ 0 ∧
    (((checkAndSetConstructionProperties matSample (fun _ => 0) cstGlass1
        false).1).d.typeIsWindow = true ↔
      ∃ L ∈ layerIdx cstGlass1.totLayers, cstGlass1.layerPoint L ≠ 0 ∧
        windowEligible (matSample (cstGlass1.layerPoint L)).group) :=
  ⟨by decide, by decide, by decide,
    (c2_window_classification matSample (fun _ => 0) cstGlass1 false
      (by decide) (by decide) (by decide)).1⟩

theorem caspTail_ef_ecoroof (mat : ℕ → MaterialProperties) (cst : ConstructionData)
    (il : ℕ) (d : ConstrDerived) (ef : Bool)
    (hout : (mat (cst.layerPoint 1)).group = EcoRoof)
    (hin : anyEcoRoofBeyondFirst mat cst = true) :
    (caspTail mat cst il d ef).2 = true := by
  unfold caspTail efTail
  dsimp only
  rw [hout, if_neg (show ¬(EcoRoof = IRTMaterial) by decide), if_pos rfl, hin,
    Bool.or_true]

theorem caspTail_typeIsEcoRoof (mat : ℕ → MaterialProperties)
    (cst : ConstructionData) (il : ℕ) (d : ConstrDerived) (ef : Bool)
    (hout : (mat (cst.layerPoint 1)).group = EcoRoof) :
    ((caspTail mat cst il d ef).1).d.typeIsEcoRoof = true := by
  unfold caspTail dTail
  dsimp only
  rw [hout, if_neg (show ¬(EcoRoof = IRTMaterial) by decide), if_pos rfl]

theorem caspWindow_ef_ecoroof (mat : ℕ → MaterialProperties) (bw : ℕ → ℚ)
    (cst : ConstructionData) (il imn : ℕ) (d : ConstrDerived) (ef : Bool)
    (hB : cst.windowTypeBSDF = false) (hE : cst.windowTypeEQL = false)
    (hout : (mat (cst.layerPoint 1)).group = EcoRoof)
    (hin : anyEcoRoofBeyondFirst mat cst = true) :
    (caspWindow mat bw cst il imn d ef).2 = true := by
  unfold caspWindow
  dsimp only
  rw [if_neg (by simp [hB]), if_neg (by simp [hE])]
  exact caspTail_ef_ecoroof _ _ _ _ _ hout hin

theorem caspWindow_typeIsEcoRoof (mat : ℕ → MaterialProperties) (bw : ℕ → ℚ)
    (cst : ConstructionData) (il imn : ℕ) (d : ConstrDerived) (ef : Bool)
    (hB : cst.windowTypeBSDF = false) (hE : cst.windowTypeEQL = false)
    (hout : (mat (cst.layerPoint 1)).group = EcoRoof) :
    ((caspWindow mat bw cst il imn d ef).1).d.typeIsEcoRoof = true := by
  unfold caspWindow
  dsimp only
  rw [if_neg (by simp [hB]), if_neg (by simp [hE])]
  exact caspTail_typeIsEcoRoof _ _ _ _ _ hout

/-- C4 (counterexample): a two-layer construction with an opaque outermost
layer and an EcoRoof layer at position 2 passes
`CheckAndSetConstructionProperties` with no error flag, contradicting the
claim that any interior EcoRoof layer sets the flag. -/
theorem c4_counterexample :
    (matSample (cstRegEco.layerPoint 2)).group = EcoRoof ∧
    (matSample (cstRegEco.layerPoint 1)).group ≠ EcoRoof ∧
    cstRegEco.totLayers = 2 ∧
    (checkAndSetConstructionProperties matSample (fun _ => 0) cstRegEco
      false).2 = false := by decide

/-- C4 (amended): the EcoRoof positional check runs only when the outermost
layer is EcoRoof — in that case the construction is marked eco-roof and any
further EcoRoof layer at positions 2..TotLayers sets the error flag; when the
outermost layer is not EcoRoof no EcoRoof check is performed, so an interior
EcoRoof layer alone sets no flag. -/
theorem c4_interior_ecoroof_error (mat : ℕ → MaterialProperties) (bw : ℕ → ℚ)
    (cst : ConstructionData) (ef : Bool)
    (h1 : cst.layerPoint cst.totLayers ≠ 0) (h2 : cst.totLayers ≠ 0)
    (h3 : cst.layerPoint 1 ≠ 0)
    (hB : cst.windowTypeBSDF = false) (hE : cst.windowTypeEQL = false)
    (hout : (mat (cst.layerPoint 1)).group = EcoRoof)
    (hin : anyEcoRoofBeyondFirst mat cst = true) :
    (checkAndSetConstructionProperties mat bw cst ef).2 = true ∧
    ((checkAndSetConstructionProperties mat bw cst ef).1).d.typeIsEcoRoof = true := by
  unfold checkAndSetConstructionProperties
  dsimp only
  rw [if_neg h1, if_neg h2, if_neg h1, if_neg h3]
  by_cases hW : (caspBaseDerived mat cst).typeIsWindow = true
  · rw [if_pos hW]
    exact ⟨caspWindow_ef_ecoroof _ _ _ _ _ _ _ hB hE hout hin,
      caspWindow_typeIsEcoRoof _ _ _ _ _ _ _ hB hE hout⟩
  · rw [if_neg hW]
    exact ⟨caspTail_ef_ecoroof _ _ _ _ _ hout hin,
      caspTail_typeIsEcoRoof _ _ _ _ _ hout⟩

theorem layerIdx_one : layerIdx 1 = [1] := rfl

theorem layerIdx_four : layerIdx 4 = [1, 2, 3, 4] := rfl

theorem layerIdx_five : layerIdx 5 = [1, 2, 3, 4, 5] := rfl

theorem layerIdx_six : layerIdx 6 = [1, 2, 3, 4, 5, 6] := rfl

theorem layerIdx_seven : layerIdx 7 = [1, 2, 3, 4, 5, 6, 7] := rfl

theorem efTail_true (mat : ℕ → MaterialProperties) (cst : ConstructionData)
    (il : ℕ) : efTail mat cst il true = true := by
  unfold efTail
  dsimp only
  simp

theorem caspWindow_snd (mat : ℕ → MaterialProperties) (bw : ℕ → ℚ)
    (cst : ConstructionData) (il imn : ℕ) (d : ConstrDerived) (ef : Bool)
    (hB : cst.windowTypeBSDF = false) (hE : cst.windowTypeEQL = false) :
    (caspWindow mat bw cst il imn d ef).2 =
      efTail mat cst
        (if (mat (cst.layerPoint il)).group = Shade ∨
            (mat (cst.layerPoint il)).group = WindowBlind then il - 1 else il)
        (efSimpleGlazing mat cst
            (bgCheck mat bw cst (totGlassLayersCalc mat cst)
              (totShadeLayersCalc mat cst)
              (wwPreBG mat cst (totShadeLayersCalc mat cst)
                (adjacentSameGroup mat cst))
              (efDiffusing mat cst (totGlassLayersCalc mat cst)
                (totShadeLayersCalc mat cst) (efMixAndCount mat cst ef))).2 ||
          (bgCheck mat bw cst (totGlassLayersCalc mat cst)
            (totShadeLayersCalc mat cst)
            (wwPreBG mat cst (totShadeLayersCalc mat cst)
              (adjacentSameGroup mat cst))
            (efDiffusing mat cst (totGlassLayersCalc mat cst)
              (totShadeLayersCalc mat cst) (efMixAndCount mat cst ef))).1) := by
  unfold caspWindow
  dsimp only
  rw [if_neg (by simp [hB]), if_neg (by simp [hE])]
  rfl

theorem casp_snd_window (mat : ℕ → MaterialProperties) (bw : ℕ → ℚ)
    (cst : ConstructionData) (ef : Bool)
    (h1 : cst.layerPoint cst.totLayers ≠ 0) (h2 : cst.totLayers ≠ 0)
    (h3 : cst.layerPoint 1 ≠ 0) (hW : anyWindowLayer mat cst = true) :
    (checkAndSetConstructionProperties mat bw cst ef).2 =
      (caspWindow mat bw cst cst.totLayers (cst.layerPoint cst.totLayers)
        (caspBaseDerived mat cst) ef).2 := by
  unfold checkAndSetConstructionProperties
  dsimp only
  rw [if_neg h1, if_neg h2, if_neg h1, if_neg h3,
    if_pos (show (caspBaseDerived mat cst).typeIsWindow = true from by
      rw [caspBaseDerived_typeIsWindow]; exact hW)]

theorem c4_witness :
    cstEcoEco.layerPoint cstEcoEco.totLayers ≠ 0 ∧
    (matSample (cstEcoEco.layerPoint 1)).group = EcoRoof ∧
    anyEcoRoofBeyondFirst matSample cstEcoEco = true ∧
    (checkAndSetConstructionProperties matSample (fun _ => 0) cstEcoEco
      false).2 = true :=
  ⟨by decide, by decide, by decide,
    (c4_interior_ecoroof_error matSample (fun _ => 0) cstEcoEco false
      (by decide) (by decide) (by decide) (by decide) (by decide)
      (by decide) (by decide)).1⟩

theorem gasGroupFacts (g : ℤ) (h : g = WindowGas ∨ g = WindowGasMixture) :
    g ≠ WindowGlass ∧ g ≠ WindowSimpleGlazing ∧
    ¬(g = Shade ∨ g = WindowBlind ∨ g = Screen ∨ g = ComplexWindowShade) ∧
    g ≠ Shade ∧ g ≠ WindowBlind ∧ g ≠ Screen ∧ g ≠ ComplexWindowShade ∧
    g ≠ Air ∧ g ≠ EcoRoof ∧ g ≠ IRTMaterial ∧ windowEligible g := by
  rcases h with h | h <;> subst h <;> decide

theorem shadeOrBlindGroupFacts (g : ℤ) (h : g = Shade ∨ g = WindowBlind) :
    g ≠ WindowGlass ∧ g ≠ WindowSimpleGlazing ∧
    (g = Shade ∨ g = WindowBlind ∨ g = Screen ∨ g = ComplexWindowShade) ∧
    g ≠ WindowGas ∧ g ≠ WindowGasMixture ∧ g ≠ Air ∧ g ≠ EcoRoof ∧
    g ≠ IRTMaterial ∧ g ≠ Screen ∧ windowEligible g := by
  rcases h with h | h <;> subst h <;>
    exact ⟨by decide, by decide, by decide, by decide, by decide, by decide,
      by decide, by decide, by decide, by decide⟩

theorem windowGlassNeFacts :
    (WindowGlass : ℤ) ≠ WindowSimpleGlazing ∧ (WindowGlass : ℤ) ≠ Shade ∧
    (WindowGlass : ℤ) ≠ WindowBlind ∧ (WindowGlass : ℤ) ≠ Screen ∧
    (WindowGlass : ℤ) ≠ ComplexWindowShade ∧ (WindowGlass : ℤ) ≠ WindowGas ∧
    (WindowGlass : ℤ) ≠ WindowGasMixture ∧ (WindowGlass : ℤ) ≠ Air ∧
    (WindowGlass : ℤ) ≠ EcoRoof ∧ (WindowGlass : ℤ) ≠ IRTMaterial ∧
    windowEligible WindowGlass := by decide

/-- C1: for a window construction matching the double-glazing between-glass
pattern glass/gas/shade-or-blind/gas/glass (or the triple-glazing pattern
glass/gas/glass/gas/shade-or-blind/gas/glass), the validator sets the error
flag whenever the two gas layers flanking the shading layer differ in gas
type or gas fraction in one of the 5 species slots, or in thickness by more
than 0.0005 (absolute); when they agree in every slot and within the
tolerance — and the independent diffusing-glass and blind-slat-width checks
are silent — this check sets no error flag. -/
theorem c1_between_glass_gap_consistency (mat : ℕ → MaterialProperties)
    (bw : ℕ → ℚ) (cst : ConstructionData)
    (hB : cst.windowTypeBSDF = false) (hE : cst.windowTypeEQL = false)
    (hnz : ∀ L ∈ layerIdx cst.totLayers, cst.layerPoint L ≠ 0)
    (hpat : (cst.totLayers = 5 ∧ validBGDouble mat cst) ∨
            (cst.totLayers = 7 ∧ validBGTriple mat cst)) :
    (bgGapMismatch mat cst →
      ∀ ef, (checkAndSetConstructionProperties mat bw cst ef).2 = true) ∧
    (¬ bgGapMismatch mat cst →
      (∀ L ∈ layerIdx cst.totLayers, (mat (cst.layerPoint L)).solarDiffusing = false) →
      ((mat (cst.layerPoint (cst.totLayers - 2))).group = WindowBlind →
        0 < (mat (cst.layerPoint (cst.totLayers - 2))).blindDataPtr →
        bw (mat (cst.layerPoint (cst.totLayers - 2))).blindDataPtr ≤
          (mat (cst.layerPoint (cst.totLayers - 3))).thickness +
            (mat (cst.layerPoint (cst.totLayers - 1))).thickness) →
      (checkAndSetConstructionProperties mat bw cst false).2 = false) := by
  obtain ⟨wgS, wgSh, wgBl, wgScr, wgCS, wgGas, wgMix, wgAir, wgEco, wgIrt, wgEl⟩ :=
    windowGlassNeFacts
  rcases hpat with ⟨hn, hp⟩ | ⟨hn, hp⟩
  · -- double glazing: glass / gas / shade-or-blind / gas / glass
    obtain ⟨hg1, hg2, ⟨hg3, -⟩, hg4, hg5⟩ := hp
    rw [hn] at hnz
    have hz1 := hnz 1 (by decide)
    have hz2 := hnz 2 (by decide)
    have hz3 := hnz 3 (by decide)
    have hz4 := hnz 4 (by decide)
    have hz5 := hnz 5 (by decide)
    have h2 : cst.totLayers ≠ 0 := by rw [hn]; decide
    have h1 : cst.layerPoint cst.totLayers ≠ 0 := by rw [hn]; exact hz5
    obtain ⟨F2g, F2s, F2set, F2sh, F2bl, F2scr, F2cs, F2air, F2eco, F2irt, F2el⟩ :=
      gasGroupFacts _ hg2
    obtain ⟨F3g, F3s, F3set, F3gas, F3mix, F3air, F3eco, F3irt, F3scr, F3el⟩ :=
      shadeOrBlindGroupFacts _ hg3
    obtain ⟨F4g, F4s, F4set, F4sh, F4bl, F4scr, F4cs, F4air, F4eco, F4irt, F4el⟩ :=
      gasGroupFacts _ hg4
    have hW : anyWindowLayer mat cst = true := by
      simp only [anyWindowLayer, List.any_eq_true, decide_eq_true_eq]
      exact ⟨1, by rw [hn]; decide, hz1, by rw [hg1]; exact wgEl⟩
    have hvd : validBGDouble mat cst := ⟨hg1, hg2, ⟨hg3, F3scr⟩, hg4, hg5⟩
    have d12 : (mat (cst.layerPoint 1)).group ≠ (mat (cst.layerPoint 2)).group := by
      rcases hg2 with h | h <;> rw [hg1, h] <;> decide
    have d23 : (mat (cst.layerPoint 2)).group ≠ (mat (cst.layerPoint 3)).group := by
      rcases hg2 with h | h <;> rcases hg3 with h' | h' <;> rw [h, h'] <;> decide
    have d34 : (mat (cst.layerPoint 3)).group ≠ (mat (cst.layerPoint 4)).group := by
      rcases hg3 with h | h <;> rcases hg4 with h' | h' <;> rw [h, h'] <;> decide
    have d45 : (mat (cst.layerPoint 4)).group ≠ (mat (cst.layerPoint 5)).group := by
      rcases hg4 with h | h <;> rw [h, hg5] <;> decide
    have hGlass : totGlassLayersCalc mat cst = 2 := by
      simp [totGlassLayersCalc, hn, layerIdx_five, List.countP_cons, List.countP_nil,
        hz1, hz2, hz3, hz4, hz5, hg1, hg5, F2g, F2s, F3g, F3s, F4g, F4s, wgS]
    have hShade : totShadeLayersCalc mat cst = 1 := by
      simp [totShadeLayersCalc, hn, layerIdx_five, List.countP_cons, List.countP_nil,
        hz1, hz2, hz3, hz4, hz5, hg1, hg5, F2set, F3set, F4set,
        wgSh, wgBl, wgScr, wgCS]
    have hAdj : adjacentSameGroup mat cst = false := by
      simp [adjacentSameGroup, hn, layerIdx_four, d12, d23, d34, d45]
    have hMix : ∀ ef, efMixAndCount mat cst ef = ef := by
      intro ef
      simp [efMixAndCount, hn, layerIdx_five, hz1, hz2, hz3, hz4, hz5,
        hg1, hg5, F2el, F3el, F4el, wgEl]
    have hPre : wwPreBG mat cst 1 false = false := by
      simp [wwPreBG, hn, hg1, hg5, wgGas, wgMix, wgScr]
    constructor
    · intro hmis ef
      have hidx3 : cst.totLayers - 3 = 2 := by rw [hn]
      have hidx1 : cst.totLayers - 1 = 4 := by rw [hn]
      unfold bgGapMismatch at hmis
      rw [hidx3, hidx1] at hmis
      have hbg1 : ∀ e', (bgCheck mat bw cst 2 1 false e').1 = true := by
        intro e'
        rcases hmis with hm | hm <;>
          simp [bgCheck, hn, hg1, hg5, wgSh, wgBl, wgScr, wgCS, hvd, hg3, hm]
      rw [casp_snd_window mat bw cst ef h1 h2 hz1 hW,
        caspWindow_snd mat bw cst _ _ _ ef hB hE, hGlass, hShade, hAdj, hPre, hbg1,
        Bool.or_true, efTail_true]
    · intro hnomis hd hbw
      have hidx3 : cst.totLayers - 3 = 2 := by rw [hn]
      have hidx1 : cst.totLayers - 1 = 4 := by rw [hn]
      have hidx2 : cst.totLayers - 2 = 3 := by rw [hn]
      rw [hidx2, hidx3, hidx1] at hbw
      rw [hn] at hd
      have hd1 := hd 1 (by decide)
      have hd2 := hd 2 (by decide)
      have hd3 := hd 3 (by decide)
      have hd4 := hd 4 (by decide)
      have hd5 := hd 5 (by decide)
      have hno1 : ¬(∃ i : Fin 5,
          (mat (cst.layerPoint 2)).gasType i ≠ (mat (cst.layerPoint 4)).gasType i ∨
          (mat (cst.layerPoint 2)).gasFract i ≠ (mat (cst.layerPoint 4)).gasFract i) :=
        fun hex => hnomis (by
          unfold bgGapMismatch; rw [hidx3, hidx1]; exact Or.inl hex)
      have hno2 : ¬((0.0005 : ℚ) <
          |(mat (cst.layerPoint 2)).thickness - (mat (cst.layerPoint 4)).thickness|) :=
        fun hlt => hnomis (by
          unfold bgGapMismatch; rw [hidx3, hidx1]; exact Or.inr hlt)
      have hblind : ¬((mat (cst.layerPoint 3)).group = WindowBlind ∧
          0 < (mat (cst.layerPoint 3)).blindDataPtr ∧
          (mat (cst.layerPoint 2)).thickness + (mat (cst.layerPoint 4)).thickness <
            bw (mat (cst.layerPoint 3)).blindDataPtr) :=
        fun h => absurd h.2.2 (not_lt.mpr (hbw h.1 h.2.1))
      have hDiff : efDiffusing mat cst 2 1 false = false := by
        simp [efDiffusing, anyDiffusingWithShade, anyDiffusingNotInnermost, hn,
          layerIdx_five, hd1, hd2, hd3, hd4, hd5]
      have hbgfull : bgCheck mat bw cst 2 1 false false = (false, false) := by
        simp [bgCheck, hn, hg1, hg5, wgSh, wgBl, wgScr, wgCS, hvd, hg3,
          hno1, hno2, hblind]
      have hSimple : efSimpleGlazing mat cst false = false := by
        simp [efSimpleGlazing, hn, hg1, wgS]
      rw [casp_snd_window mat bw cst false h1 h2 hz1 hW,
        caspWindow_snd mat bw cst _ _ _ false hB hE, hGlass, hShade, hAdj, hPre,
        hMix, hDiff, hbgfull]
      simp [hSimple, efTail, hn, hg1, hg5, wgAir, wgEco, wgIrt, wgSh, wgBl]
  · -- triple glazing: glass / gas / glass / gas / shade-or-blind / gas / glass
    obtain ⟨hg1, hg2, hg3, hg4, ⟨hg5, -⟩, hg6, hg7⟩ := hp
    rw [hn] at hnz
    have hz1 := hnz 1 (by decide)
    have hz2 := hnz 2 (by decide)
    have hz3 := hnz 3 (by decide)
    have hz4 := hnz 4 (by decide)
    have hz5 := hnz 5 (by decide)
    have hz6 := hnz 6 (by decide)
    have hz7 := hnz 7 (by decide)
    have h2 : cst.totLayers ≠ 0 := by rw [hn]; decide
    have h1 : cst.layerPoint cst.totLayers ≠ 0 := by rw [hn]; exact hz7
    obtain ⟨F2g, F2s, F2set, F2sh, F2bl, F2scr, F2cs, F2air, F2eco, F2irt, F2el⟩ :=
      gasGroupFacts _ hg2
    obtain ⟨F4g, F4s, F4set, F4sh, F4bl, F4scr, F4cs, F4air, F4eco, F4irt, F4el⟩ :=
      gasGroupFacts _ hg4
    obtain ⟨F5g, F5s, F5set, F5gas, F5mix, F5air, F5eco, F5irt, F5scr, F5el⟩ :=
      shadeOrBlindGroupFacts _ hg5
    obtain ⟨F6g, F6s, F6set, F6sh, F6bl, F6scr, F6cs, F6air, F6eco, F6irt, F6el⟩ :=
      gasGroupFacts _ hg6
    have hW : anyWindowLayer mat cst = true := by
      simp only [anyWindowLayer, List.any_eq_true, decide_eq_true_eq]
      exact ⟨1, by rw [hn]; decide, hz1, by rw [hg1]; exact wgEl⟩
    have hvt : validBGTriple mat cst := ⟨hg1, hg2, hg3, hg4, ⟨hg5, F5scr⟩, hg6, hg7⟩
    have d12 : (mat (cst.layerPoint 1)).group ≠ (mat (cst.layerPoint 2)).group := by
      rcases hg2 with h | h <;> rw [hg1, h] <;> decide
    have d23 : (mat (cst.layerPoint 2)).group ≠ (mat (cst.layerPoint 3)).group := by
      rcases hg2 with h | h <;> rw [h, hg3] <;> decide
    have d34 : (mat (cst.layerPoint 3)).group ≠ (mat (cst.layerPoint 4)).group := by
      rcases hg4 with h | h <;> rw [hg3, h] <;> decide
    have d45 : (mat (cst.layerPoint 4)).group ≠ (mat (cst.layerPoint 5)).group := by
      rcases hg4 with h | h <;> rcases hg5 with h' | h' <;> rw [h, h'] <;> decide
    have d56 : (mat (cst.layerPoint 5)).group ≠ (mat (cst.layerPoint 6)).group := by
      rcases hg5 with h | h <;> rcases hg6 with h' | h' <;> rw [h, h'] <;> decide
    have d67 : (mat (cst.layerPoint 6)).group ≠ (mat (cst.layerPoint 7)).group := by
      rcases hg6 with h | h <;> rw [h, hg7] <;> decide
    have hGlass : totGlassLayersCalc mat cst = 3 := by
      simp [totGlassLayersCalc, hn, layerIdx_seven, List.countP_cons, List.countP_nil,
        hz1, hz2, hz3, hz4, hz5, hz6, hz7, hg1, hg3, hg7,
        F2g, F2s, F4g, F4s, F5g, F5s, F6g, F6s, wgS]
    have hShade : totShadeLayersCalc mat cst = 1 := by
      simp [totShadeLayersCalc, hn, layerIdx_seven, List.countP_cons, List.countP_nil,
        hz1, hz2, hz3, hz4, hz5, hz6, hz7, hg1, hg3, hg7,
        F2set, F4set, F5set, F6set, wgSh, wgBl, wgScr, wgCS]
    have hAdj : adjacentSameGroup mat cst = false := by
      simp [adjacentSameGroup, hn, layerIdx_six, d12, d23, d34, d45, d56, d67]
    have hMix : ∀ ef, efMixAndCount mat cst ef = ef := by
      intro ef
      simp [efMixAndCount, hn, layerIdx_seven, hz1, hz2, hz3, hz4, hz5, hz6, hz7,
        hg1, hg3, hg7, F2el, F4el, F5el, F6el, wgEl]
    have hPre : wwPreBG mat cst 1 false = false := by
      simp [wwPreBG, hn, hg1, hg7, wgGas, wgMix, wgScr]
    constructor
    · intro hmis ef
      have hidx3 : cst.totLayers - 3 = 4 := by rw [hn]
      have hidx1 : cst.totLayers - 1 = 6 := by rw [hn]
      unfold bgGapMismatch at hmis
      rw [hidx3, hidx1] at hmis
      have hbg1 : ∀ e', (bgCheck mat bw cst 3 1 false e').1 = true := by
        intro e'
        rcases hmis with hm | hm <;>
          simp [bgCheck, hn, hg1, hg7, wgSh, wgBl, wgScr, wgCS, hvt, hg5, hm]
      rw [casp_snd_window mat bw cst ef h1 h2 hz1 hW,
        caspWindow_snd mat bw cst _ _ _ ef hB hE, hGlass, hShade, hAdj, hPre, hbg1,
        Bool.or_true, efTail_true]
    · intro hnomis hd hbw
      have hidx3 : cst.totLayers - 3 = 4 := by rw [hn]
      have hidx1 : cst.totLayers - 1 = 6 := by rw [hn]
      have hidx2 : cst.totLayers - 2 = 5 := by rw [hn]
      rw [hidx2, hidx3, hidx1] at hbw
      rw [hn] at hd
      have hd1 := hd 1 (by decide)
      have hd2 := hd 2 (by decide)
      have hd3 := hd 3 (by decide)
      have hd4 := hd 4 (by decide)
      have hd5 := hd 5 (by decide)
      have hd6 := hd 6 (by decide)
      have hd7 := hd 7 (by decide)
      have hno1 : ¬(∃ i : Fin 5,
          (mat (cst.layerPoint 4)).gasType i ≠ (mat (cst.layerPoint 6)).gasType i ∨
          (mat (cst.layerPoint 4)).gasFract i ≠ (mat (cst.layerPoint 6)).gasFract i) :=
        fun hex => hnomis (by
          unfold bgGapMismatch; rw [hidx3, hidx1]; exact Or.inl hex)
      have hno2 : ¬((0.0005 : ℚ) <
          |(mat (cst.layerPoint 4)).thickness - (mat (cst.layerPoint 6)).thickness|) :=
        fun hlt => hnomis (by
          unfold bgGapMismatch; rw [hidx3, hidx1]; exact Or.inr hlt)
      have hblind : ¬((mat (cst.layerPoint 5)).group = WindowBlind ∧
          0 < (mat (cst.layerPoint 5)).blindDataPtr ∧
          (mat (cst.layerPoint 4)).thickness + (mat (cst.layerPoint 6)).thickness <
            bw (mat (cst.layerPoint 5)).blindDataPtr) :=
        fun h => absurd h.2.2 (not_lt.mpr (hbw h.1 h.2.1))
      have hDiff : efDiffusing mat cst 3 1 false = false := by
        simp [efDiffusing, anyDiffusingWithShade, anyDiffusingNotInnermost, hn,
          layerIdx_seven, hd1, hd2, hd3, hd4, hd5, hd6, hd7]
      have hbgfull : bgCheck mat bw cst 3 1 false false = (false, false) := by
        simp [bgCheck, hn, hg1, hg7, wgSh, wgBl, wgScr, wgCS, hvt, hg5,
          hno1, hno2, hblind]
      have hSimple : efSimpleGlazing mat cst false = false := by
        simp [efSimpleGlazing, hn, hg1, wgS]
      rw [casp_snd_window mat bw cst false h1 h2 hz1 hW,
        caspWindow_snd mat bw cst _ _ _ false hB hE, hGlass, hShade, hAdj, hPre,
        hMix, hDiff, hbgfull]
      simp [hSimple, efTail, hn, hg1, hg7, wgAir, wgEco, wgIrt, wgSh, wgBl]

theorem c1_witness :
    (cstBGMismatch.totLayers = 5 ∧ validBGDouble matSample cstBGMismatch) ∧
    bgGapMismatch matSample cstBGMismatch ∧
    (checkAndSetConstructionProperties matSample (fun _ => 0) cstBGMismatch
      false).2 = true :=
  have hp : cstBGMismatch.totLayers = 5 ∧ validBGDouble matSample cstBGMismatch := by
    decide
  have hm : bgGapMismatch matSample cstBGMismatch := by decide
  have hnz : ∀ L ∈ layerIdx cstBGMismatch.totLayers,
      cstBGMismatch.layerPoint L ≠ 0 := by
    have h : layerIdx cstBGMismatch.totLayers = [1, 2, 3, 4, 5] := rfl
    rw [h]; decide
  ⟨hp, hm,
    (c1_between_glass_gap_consistency matSample (fun _ => 0) cstBGMismatch
      (by decide) (by decide) hnz (Or.inl hp)).1 hm false⟩

theorem getD_set_ite {α : Type} [Inhabited α] (l : List α) (i j : ℕ) (a : α) :
    (l.set i a).getD j default =
      if i = j ∧ i < l.length then a else l.getD j default := by
  induction l generalizing i j with
  | nil => simp
  | cons x xs ih =>
    cases i with
    | zero =>
      cases j with
      | zero => simp
      | succ j =>
        rw [if_neg (by omega)]
        rfl
    | succ i =>
      cases j with
      | zero =>
        rw [if_neg (by omega)]
        rfl
      | succ j =>
        show (xs.set i a).getD j default = _
        rw [ih]
        by_cases h : i = j ∧ i < xs.length
        · rw [if_pos h, if_pos (by simp only [List.length_cons]; omega)]
        · rw [if_neg h, if_neg (by simp only [List.length_cons]; omega)]
          rfl

theorem find?_congr {α : Type} (l : List α) (p q : α → Bool)
    (h : ∀ x ∈ l, p x = q x) : l.find? p = l.find? q := by
  induction l with
  | nil => rfl
  | cons x xs ih =>
    have hx := h x (List.mem_cons_self x xs)
    by_cases hp : p x = true
    · rw [List.find?_cons_of_pos _ hp, List.find?_cons_of_pos _ (hx ▸ hp)]
    · rw [List.find?_cons_of_neg _ hp,
        List.find?_cons_of_neg _ (by rw [← hx]; exact hp)]
      exact ih fun y hy => h y (List.mem_cons_of_mem x hy)

theorem caspTail_layerPoint (mat : ℕ → MaterialProperties) (cst : ConstructionData)
    (il : ℕ) (d : ConstrDerived) (ef : Bool) :
    ((caspTail mat cst il d ef).1).layerPoint = cst.layerPoint := rfl

theorem caspTail_totLayers (mat : ℕ → MaterialProperties) (cst : ConstructionData)
    (il : ℕ) (d : ConstrDerived) (ef : Bool) :
    ((caspTail mat cst il d ef).1).totLayers = cst.totLayers := rfl

theorem caspWindow_layerPoint (mat : ℕ → MaterialProperties) (bw : ℕ → ℚ)
    (cst : ConstructionData) (il imn : ℕ) (d : ConstrDerived) (ef : Bool) :
    ((caspWindow mat bw cst il imn d ef).1).layerPoint = cst.layerPoint := by
  unfold caspWindow
  dsimp only
  split
  · rfl
  · split <;> rfl

theorem caspWindow_totLayers (mat : ℕ → MaterialProperties) (bw : ℕ → ℚ)
    (cst : ConstructionData) (il imn : ℕ) (d : ConstrDerived) (ef : Bool) :
    ((caspWindow mat bw cst il imn d ef).1).totLayers = cst.totLayers := by
  unfold caspWindow
  dsimp only
  split
  · rfl
  · split <;> rfl

theorem casp_layerPoint (mat : ℕ → MaterialProperties) (bw : ℕ → ℚ)
    (cst : ConstructionData) (ef : Bool) :
    ((checkAndSetConstructionProperties mat bw cst ef).1).layerPoint =
      cst.layerPoint := by
  unfold checkAndSetConstructionProperties
  dsimp only
  repeat' split
  all_goals
    first
      | rfl
      | exact caspWindow_layerPoint _ _ _ _ _ _ _
      | exact caspTail_layerPoint _ _ _ _ _

theorem casp_totLayers (mat : ℕ → MaterialProperties) (bw : ℕ → ℚ)
    (cst : ConstructionData) (ef : Bool) :
    ((checkAndSetConstructionProperties mat bw cst ef).1).totLayers =
      cst.totLayers := by
  unfold checkAndSetConstructionProperties
  dsimp only
  repeat' split
  all_goals
    first
      | rfl
      | exact caspWindow_totLayers _ _ _ _ _ _ _
      | exact caspTail_totLayers _ _ _ _ _

theorem markUsed_length (s : ConstrState) (c : ℕ) :
    (markUsed s c).constructs.length = s.constructs.length := by
  simp [markUsed]

theorem markUsed_layerPoint (s : ConstrState) (c i : ℕ) :
    (getConstruct (markUsed s c) i).layerPoint = (getConstruct s i).layerPoint := by
  unfold getConstruct markUsed
  dsimp only
  rw [getD_set_ite]
  split
  · next h =>
    rw [show i - 1 = c - 1 from h.1.symm]
    rfl
  · rfl

theorem markUsed_totLayers (s : ConstrState) (c i : ℕ) :
    (getConstruct (markUsed s c) i).totLayers = (getConstruct s i).totLayers := by
  unfold getConstruct markUsed
  dsimp only
  rw [getD_set_ite]
  split
  · next h =>
    rw [show i - 1 = c - 1 from h.1.symm]
    rfl
  · rfl

theorem reversedLayerPoint_congr (a b : ConstructionData)
    (h1 : a.totLayers = b.totLayers) (h2 : a.layerPoint = b.layerPoint) :
    reversedLayerPoint a = reversedLayerPoint b := by
  unfold reversedLayerPoint
  rw [h1, h2]

theorem findMatching_markUsed (s : ConstrState) (c : ℕ) (rev : ℕ → ℕ) :
    findMatchingConstruction (markUsed s c) rev = findMatchingConstruction s rev := by
  unfold findMatchingConstruction
  rw [markUsed_length]
  exact find?_congr _ _ _ fun i _ => by rw [markUsed_layerPoint]

theorem getD_concat {α : Type} [Inhabited α] (l : List α) (x : α) :
    (l ++ [x]).getD l.length default = x := by
  induction l with
  | nil => rfl
  | cons y ys ih => exact ih

theorem getD_concat_last {α : Type} [Inhabited α] (l : List α) (x : α) :
    (l ++ [x]).getD ((l ++ [x]).length - 1) default = x := by
  have h : (l ++ [x]).length - 1 = l.length := by simp
  rw [h]
  exact getD_concat l x

theorem assignReverse_found (mat : ℕ → MaterialProperties) (bw nr : ℕ → ℚ)
    (s : ConstrState) (c : ℕ) (e : Bool) (i : ℕ) (hc0 : c ≠ 0)
    (hfind : findMatchingConstruction (markUsed s c)
      (reversedLayerPoint (getConstruct (markUsed s c) c)) = some i) :
    assignReverseConstructionNumber mat bw nr s c e = (i, markUsed s c, e) := by
  unfold assignReverseConstructionNumber
  rw [if_neg hc0]
  dsimp only
  rw [hfind]

theorem arc_none_fst (mat : ℕ → MaterialProperties) (bw nr : ℕ → ℚ)
    (s : ConstrState) (c : ℕ) (e : Bool) (hc0 : c ≠ 0)
    (hfind : findMatchingConstruction (markUsed s c)
      (reversedLayerPoint (getConstruct (markUsed s c) c)) = none) :
    (assignReverseConstructionNumber mat bw nr s c e).1 = s.constructs.length + 1 := by
  unfold assignReverseConstructionNumber
  rw [if_neg hc0]
  dsimp only
  rw [hfind]
  dsimp only
  simp [markUsed_length]

theorem arc_none_len (mat : ℕ → MaterialProperties) (bw nr : ℕ → ℚ)
    (s : ConstrState) (c : ℕ) (e : Bool) (hc0 : c ≠ 0)
    (hfind : findMatchingConstruction (markUsed s c)
      (reversedLayerPoint (getConstruct (markUsed s c) c)) = none) :
    (assignReverseConstructionNumber mat bw nr s c e).2.1.constructs.length =
      s.constructs.length + 1 := by
  unfold assignReverseConstructionNumber
  rw [if_neg hc0]
  dsimp only
  rw [hfind]
  dsimp only
  simp [markUsed_length]

theorem arc_none_old_lp (mat : ℕ → MaterialProperties) (bw nr : ℕ → ℚ)
    (s : ConstrState) (c : ℕ) (e : Bool) (hc0 : c ≠ 0)
    (hfind : findMatchingConstruction (markUsed s c)
      (reversedLayerPoint (getConstruct (markUsed s c) c)) = none)
    (i : ℕ) (hi1 : 1 ≤ i) (hi2 : i ≤ s.constructs.length) :
    (getConstruct (assignReverseConstructionNumber mat bw nr s c e).2.1 i).layerPoint =
      (getConstruct s i).layerPoint := by
  unfold assignReverseConstructionNumber
  rw [if_neg hc0]
  dsimp only
  rw [hfind]
  dsimp only
  unfold getConstruct
  dsimp only
  rw [getD_set_ite]
  rw [if_neg (by
    simp only [List.length_append, List.length_cons, List.length_nil, markUsed_length]
    omega)]
  rw [List.getD_append _ _ _ _ (by simp only [markUsed_length]; omega)]
  exact markUsed_layerPoint s c i

theorem arc_none_old_tot (mat : ℕ → MaterialProperties) (bw nr : ℕ → ℚ)
    (s : ConstrState) (c : ℕ) (e : Bool) (hc0 : c ≠ 0)
    (hfind : findMatchingConstruction (markUsed s c)
      (reversedLayerPoint (getConstruct (markUsed s c) c)) = none)
    (i : ℕ) (hi1 : 1 ≤ i) (hi2 : i ≤ s.constructs.length) :
    (getConstruct (assignReverseConstructionNumber mat bw nr s c e).2.1 i).totLayers =
      (getConstruct s i).totLayers := by
  unfold assignReverseConstructionNumber
  rw [if_neg hc0]
  dsimp only
  rw [hfind]
  dsimp only
  unfold getConstruct
  dsimp only
  rw [getD_set_ite]
  rw [if_neg (by
    simp only [List.length_append, List.length_cons, List.length_nil, markUsed_length]
    omega)]
  rw [List.getD_append _ _ _ _ (by simp only [markUsed_length]; omega)]
  exact markUsed_totLayers s c i

theorem arc_none_new_lp (mat : ℕ → MaterialProperties) (bw nr : ℕ → ℚ)
    (s : ConstrState) (c : ℕ) (e : Bool) (hc0 : c ≠ 0)
    (hfind : findMatchingConstruction (markUsed s c)
      (reversedLayerPoint (getConstruct (markUsed s c) c)) = none) :
    (getConstruct (assignReverseConstructionNumber mat bw nr s c e).2.1
        (s.constructs.length + 1)).layerPoint =
      fun k => if 1 ≤ k ∧ k ≤ MaxLayersInConstruct
        then reversedLayerPoint (getConstruct (markUsed s c) c) k
        else (getConstruct (markUsed s c) c).layerPoint k := by
  unfold assignReverseConstructionNumber
  rw [if_neg hc0]
  dsimp only
  rw [hfind]
  dsimp only
  unfold getConstruct
  dsimp only
  rw [getD_set_ite]
  rw [if_pos (by
    simp only [List.length_append, List.length_cons, List.length_nil, markUsed_length,
      List.length_set]
    exact ⟨trivial, by omega⟩)]
  rw [casp_layerPoint]
  rw [getD_concat_last]

theorem arc_none_new_tot (mat : ℕ → MaterialProperties) (bw nr : ℕ → ℚ)
    (s : ConstrState) (c : ℕ) (e : Bool) (hc0 : c ≠ 0)
    (hfind : findMatchingConstruction (markUsed s c)
      (reversedLayerPoint (getConstruct (markUsed s c) c)) = none) :
    (getConstruct (assignReverseConstructionNumber mat bw nr s c e).2.1
        (s.constructs.length + 1)).totLayers =
      (getConstruct (markUsed s c) c).totLayers := by
  unfold assignReverseConstructionNumber
  rw [if_neg hc0]
  dsimp only
  rw [hfind]
  dsimp only
  unfold getConstruct
  dsimp only
  rw [getD_set_ite]
  rw [if_pos (by
    simp only [List.length_append, List.length_cons, List.length_nil, markUsed_length,
      List.length_set]
    exact ⟨trivial, by omega⟩)]
  rw [casp_totLayers]
  rw [getD_concat_last]

theorem layerSlotsMatch_iff (a b : ℕ → ℕ) :
    layerSlotsMatch a b = true ↔
      ∀ k, 1 ≤ k → k ≤ MaxLayersInConstruct → a k = b k := by
  unfold layerSlotsMatch
  simp only [List.all_eq_true, beq_iff_eq, List.mem_range'_1]
  constructor
  · intro h k h1 h2
    exact h k ⟨h1, by omega⟩
  · intro h k hk
    exact h k hk.1 (by omega)

theorem wfState_entry (s : ConstrState) (hwf : wfState s) (i : ℕ)
    (h1 : 1 ≤ i) (h2 : i ≤ s.constructs.length) :
    wfConstruction (getConstruct s i) := by
  have hlt : i - 1 < s.constructs.length := by omega
  unfold getConstruct
  rw [List.getD_eq_getElem _ _ hlt]
  exact hwf _ (List.getElem_mem hlt)

theorem wfConstruction_congr (a b : ConstructionData) (ht : a.totLayers = b.totLayers)
    (hl : a.layerPoint = b.layerPoint) (h : wfConstruction b) : wfConstruction a := by
  unfold wfConstruction at h ⊢
  rw [ht, hl]
  exact h

theorem slots_match_totLayers (a b : ConstructionData)
    (ha : wfConstruction a) (hb : wfConstruction b)
    (hm : ∀ k, 1 ≤ k → k ≤ MaxLayersInConstruct →
      a.layerPoint k = reversedLayerPoint b k) :
    a.totLayers = b.totLayers := by
  obtain ⟨ha1, ha2, ha3, ha4⟩ := ha
  obtain ⟨hb1, hb2, hb3, hb4⟩ := hb
  by_contra hne
  rcases Nat.lt_or_ge a.totLayers b.totLayers with hlt | hge
  · have hz : a.layerPoint (a.totLayers + 1) = 0 :=
      ha4 _ (List.mem_range'_1.mpr ⟨by omega, by omega⟩) (by omega)
    have hnz : reversedLayerPoint b (a.totLayers + 1) ≠ 0 := by
      unfold reversedLayerPoint
      rw [if_pos ⟨by omega, by omega⟩]
      exact hb3 _ (List.mem_range'_1.mpr ⟨by omega, by omega⟩) (by omega)
    exact hnz ((hm _ (by omega) (by omega)).symm.trans hz)
  · have hlt' : b.totLayers < a.totLayers := by omega
    have hnz : a.layerPoint (b.totLayers + 1) ≠ 0 :=
      ha3 _ (List.mem_range'_1.mpr ⟨by omega, by omega⟩) (by omega)
    have hz : reversedLayerPoint b (b.totLayers + 1) = 0 := by
      unfold reversedLayerPoint
      rw [if_neg (by omega)]
    exact hnz ((hm _ (by omega) (by omega)).trans hz)

theorem double_reverse (orig m : ConstructionData)
    (hwfo : wfConstruction orig)
    (hT : m.totLayers = orig.totLayers)
    (hL : ∀ k, 1 ≤ k → k ≤ MaxLayersInConstruct →
      m.layerPoint k = reversedLayerPoint orig k) :
    ∀ k, 1 ≤ k → k ≤ MaxLayersInConstruct →
      reversedLayerPoint m k = orig.layerPoint k := by
  intro k h1 h2
  obtain ⟨ho1, ho2, ho3, ho4⟩ := hwfo
  unfold reversedLayerPoint
  rw [hT]
  by_cases hk : k ≤ orig.totLayers
  · rw [if_pos ⟨h1, hk⟩]
    rw [hL (orig.totLayers + 1 - k) (by omega) (by omega)]
    unfold reversedLayerPoint
    rw [if_pos ⟨by omega, by omega⟩]
    rw [show orig.totLayers + 1 - (orig.totLayers + 1 - k) = k from by omega]
  · rw [if_neg (by omega)]
    exact (ho4 k (List.mem_range'_1.mpr ⟨h1, by omega⟩) (by omega)).symm

theorem layerSlotsMatch_newFun (b : ConstructionData) :
    layerSlotsMatch (fun k => if 1 ≤ k ∧ k ≤ MaxLayersInConstruct
      then reversedLayerPoint b k else b.layerPoint k) (reversedLayerPoint b) = true := by
  rw [layerSlotsMatch_iff]
  intro k h1 h2
  rw [if_pos ⟨h1, h2⟩]

theorem arc_none_refind (mat : ℕ → MaterialProperties) (bw nr : ℕ → ℚ)
    (s : ConstrState) (c : ℕ) (e : Bool) (hc1 : 1 ≤ c) (hc2 : c ≤ s.constructs.length)
    (hfind : findMatchingConstruction (markUsed s c)
      (reversedLayerPoint (getConstruct (markUsed s c) c)) = none) :
    findMatchingConstruction
        (markUsed (assignReverseConstructionNumber mat bw nr s c e).2.1 c)
        (reversedLayerPoint
          (getConstruct (markUsed (assignReverseConstructionNumber mat bw nr s c e).2.1 c) c)) =
      some (s.constructs.length + 1) := by
  have hc0 : c ≠ 0 := by omega
  have hrev₂ : reversedLayerPoint
      (getConstruct (markUsed (assignReverseConstructionNumber mat bw nr s c e).2.1 c) c) =
      reversedLayerPoint (getConstruct (markUsed s c) c) := by
    apply reversedLayerPoint_congr
    · rw [markUsed_totLayers, arc_none_old_tot mat bw nr s c e hc0 hfind c hc1 hc2,
        markUsed_totLayers]
    · rw [markUsed_layerPoint, arc_none_old_lp mat bw nr s c e hc0 hfind c hc1 hc2,
        markUsed_layerPoint]
  rw [hrev₂]
  unfold findMatchingConstruction
  rw [markUsed_length, arc_none_len mat bw nr s c e hc0 hfind]
  rw [List.range'_concat]
  rw [show 1 + 1 * s.constructs.length = s.constructs.length + 1 from by omega]
  rw [List.find?_append]
  have hfind' : (List.range' 1 s.constructs.length).find?
      (fun i => layerSlotsMatch (getConstruct (markUsed s c) i).layerPoint
        (reversedLayerPoint (getConstruct (markUsed s c) c))) = none := by
    have h := hfind
    unfold findMatchingConstruction at h
    rwa [markUsed_length] at h
  have hnone : (List.range' 1 s.constructs.length).find?
      (fun i => layerSlotsMatch
        (getConstruct (markUsed (assignReverseConstructionNumber mat bw nr s c e).2.1 c)
          i).layerPoint
        (reversedLayerPoint (getConstruct (markUsed s c) c))) = none := by
    rw [find?_congr _ _
      (fun i => layerSlotsMatch (getConstruct (markUsed s c) i).layerPoint
        (reversedLayerPoint (getConstruct (markUsed s c) c)))
      (fun i hi => by
        obtain ⟨hi1, hi2⟩ := List.mem_range'_1.mp hi
        show layerSlotsMatch
            (getConstruct (markUsed (assignReverseConstructionNumber mat bw nr s c e).2.1 c)
              i).layerPoint
            (reversedLayerPoint (getConstruct (markUsed s c) c)) =
          layerSlotsMatch (getConstruct (markUsed s c) i).layerPoint
            (reversedLayerPoint (getConstruct (markUsed s c) c))
        rw [markUsed_layerPoint,
          arc_none_old_lp mat bw nr s c e hc0 hfind i hi1 (by omega),
          ← markUsed_layerPoint s c i])]
    exact hfind'
  rw [hnone, Option.none_or]
  have hp : layerSlotsMatch
      (getConstruct (markUsed (assignReverseConstructionNumber mat bw nr s c e).2.1 c)
        (s.constructs.length + 1)).layerPoint
      (reversedLayerPoint (getConstruct (markUsed s c) c)) = true := by
    rw [markUsed_layerPoint, arc_none_new_lp mat bw nr s c e hc0 hfind]
    exact layerSlotsMatch_newFun _
  rw [List.find?_cons]
  simp only [hp]

/-- C5: calling `AssignReverseConstructionNumber` twice on the same valid
(nonzero, in-range) construction index returns the same index both times,
the second call appends nothing to the registry, and across the two calls
the registry grows by at most one entry. -/
theorem c5_reverse_assignment_idempotent (mat : ℕ → MaterialProperties)
    (bw nominalRMat : ℕ → ℚ) (s : ConstrState) (c : ℕ) (e : Bool)
    (hc1 : 1 ≤ c) (hc2 : c ≤ s.constructs.length) :
    (assignReverseConstructionNumber mat bw nominalRMat
        (assignReverseConstructionNumber mat bw nominalRMat s c e).2.1 c
        (assignReverseConstructionNumber mat bw nominalRMat s c e).2.2).1 =
      (assignReverseConstructionNumber mat bw nominalRMat s c e).1 ∧
    (assignReverseConstructionNumber mat bw nominalRMat
        (assignReverseConstructionNumber mat bw nominalRMat s c e).2.1 c
        (assignReverseConstructionNumber mat bw nominalRMat s c e).2.2).2.1.constructs.length =
      (assignReverseConstructionNumber mat bw nominalRMat s c e).2.1.constructs.length ∧
    (assignReverseConstructionNumber mat bw nominalRMat
        (assignReverseConstructionNumber mat bw nominalRMat s c e).2.1 c
        (assignReverseConstructionNumber mat bw nominalRMat s c e).2.2).2.1.constructs.length ≤
      s.constructs.length + 1 := by
  have hc0 : c ≠ 0 := by omega
  cases hfind : findMatchingConstruction (markUsed s c)
      (reversedLayerPoint (getConstruct (markUsed s c) c)) with
  | some i =>
    have h₁ := assignReverse_found mat bw nominalRMat s c e i hc0 hfind
    rw [h₁]
    dsimp only
    have hrev : reversedLayerPoint (getConstruct (markUsed (markUsed s c) c) c) =
        reversedLayerPoint (getConstruct (markUsed s c) c) :=
      reversedLayerPoint_congr _ _ (markUsed_totLayers _ _ _) (markUsed_layerPoint _ _ _)
    have hfind₂ : findMatchingConstruction (markUsed (markUsed s c) c)
        (reversedLayerPoint (getConstruct (markUsed (markUsed s c) c) c)) = some i := by
      rw [hrev, findMatching_markUsed]
      exact hfind
    have h₂ := assignReverse_found mat bw nominalRMat (markUsed s c) c e i hc0 hfind₂
    rw [h₂]
    refine ⟨rfl, ?_, ?_⟩
    · dsimp only
      rw [markUsed_length]
    · dsimp only
      rw [markUsed_length, markUsed_length]
      omega
  | none =>
    have hfst := arc_none_fst mat bw nominalRMat s c e hc0 hfind
    have hlen := arc_none_len mat bw nominalRMat s c e hc0 hfind
    have hfind₂ := arc_none_refind mat bw nominalRMat s c e hc1 hc2 hfind
    have h₂ := assignReverse_found mat bw nominalRMat
      (assignReverseConstructionNumber mat bw nominalRMat s c e).2.1 c
      (assignReverseConstructionNumber mat bw nominalRMat s c e).2.2
      (s.constructs.length + 1) hc0 hfind₂
    rw [h₂]
    refine ⟨?_, ?_, ?_⟩
    · dsimp only
      rw [hfst]
    · dsimp only
      rw [markUsed_length]
    · dsimp only
      rw [markUsed_length, hlen]

/-- Witness for C5 at `stateSample` with index 1. -/
theorem c5_witness :
    1 ≤ 1 ∧ 1 ≤ stateSample.constructs.length ∧
    ((assignReverseConstructionNumber matSample (fun _ => 0) (fun _ => 0)
        (assignReverseConstructionNumber matSample (fun _ => 0) (fun _ => 0)
          stateSample 1 false).2.1 1
        (assignReverseConstructionNumber matSample (fun _ => 0) (fun _ => 0)
          stateSample 1 false).2.2).1 =
      (assignReverseConstructionNumber matSample (fun _ => 0) (fun _ => 0)
        stateSample 1 false).1 ∧
    (assignReverseConstructionNumber matSample (fun _ => 0) (fun _ => 0)
        (assignReverseConstructionNumber matSample (fun _ => 0) (fun _ => 0)
          stateSample 1 false).2.1 1
        (assignReverseConstructionNumber matSample (fun _ => 0) (fun _ => 0)
          stateSample 1 false).2.2).2.1.constructs.length =
      (assignReverseConstructionNumber matSample (fun _ => 0) (fun _ => 0)
        stateSample 1 false).2.1.constructs.length ∧
    (assignReverseConstructionNumber matSample (fun _ => 0) (fun _ => 0)
        (assignReverseConstructionNumber matSample (fun _ => 0) (fun _ => 0)
          stateSample 1 false).2.1 1
        (assignReverseConstructionNumber matSample (fun _ => 0) (fun _ => 0)
          stateSample 1 false).2.2).2.1.constructs.length ≤
      stateSample.constructs.length + 1) :=
  ⟨le_refl 1, by decide,
    c5_reverse_assignment_idempotent matSample (fun _ => 0) (fun _ => 0)
      stateSample 1 false (le_refl 1) (by decide)⟩

theorem arc_second_call (mat : ℕ → MaterialProperties) (bw nr : ℕ → ℚ)
    (s₂ : ConstrState) (j : ℕ) (e₂ : Bool) (orig : ConstructionData)
    (hj0 : j ≠ 0)
    (hwfo : wfConstruction orig)
    (hT : (getConstruct s₂ j).totLayers = orig.totLayers)
    (hL : ∀ k, 1 ≤ k → k ≤ MaxLayersInConstruct →
      (getConstruct s₂ j).layerPoint k = reversedLayerPoint orig k) :
    ∀ k, 1 ≤ k → k ≤ MaxLayersInConstruct →
      (getConstruct (assignReverseConstructionNumber mat bw nr s₂ j e₂).2.1
        (assignReverseConstructionNumber mat bw nr s₂ j e₂).1).layerPoint k =
      orig.layerPoint k := by
  have hTm : (getConstruct (markUsed s₂ j) j).totLayers = orig.totLayers := by
    rw [markUsed_totLayers]
    exact hT
  have hLm : ∀ k, 1 ≤ k → k ≤ MaxLayersInConstruct →
      (getConstruct (markUsed s₂ j) j).layerPoint k = reversedLayerPoint orig k := by
    intro k h1 h2
    rw [markUsed_layerPoint]
    exact hL k h1 h2
  have hdr := double_reverse orig (getConstruct (markUsed s₂ j) j) hwfo hTm hLm
  cases hfind₂ : findMatchingConstruction (markUsed s₂ j)
      (reversedLayerPoint (getConstruct (markUsed s₂ j) j)) with
  | some i₂ =>
    have h₂ := assignReverse_found mat bw nr s₂ j e₂ i₂ hj0 hfind₂
    rw [h₂]
    dsimp only
    intro k h1 h2
    have hfind₂' := hfind₂
    unfold findMatchingConstruction at hfind₂'
    have hp := List.find?_some hfind₂'
    rw [(layerSlotsMatch_iff _ _).mp hp k h1 h2]
    exact hdr k h1 h2
  | none =>
    have hfst := arc_none_fst mat bw nr s₂ j e₂ hj0 hfind₂
    have hnew := arc_none_new_lp mat bw nr s₂ j e₂ hj0 hfind₂
    intro k h1 h2
    rw [hfst, hnew]
    dsimp only
    rw [if_pos ⟨h1, h2⟩]
    exact hdr k h1 h2

/-- C6: applying `AssignReverseConstructionNumber` to a valid construction
index and then applying it again to the returned index yields an index whose
construction's layer slots all carry the original construction's layer
references. -/
theorem c6_reverse_round_trip (mat : ℕ → MaterialProperties)
    (bw nominalRMat : ℕ → ℚ) (s : ConstrState) (c : ℕ) (e : Bool)
    (hwf : wfState s) (hc1 : 1 ≤ c) (hc2 : c ≤ s.constructs.length) :
    ∀ k, 1 ≤ k → k ≤ MaxLayersInConstruct →
      (getConstruct
        (assignReverseConstructionNumber mat bw nominalRMat
          (assignReverseConstructionNumber mat bw nominalRMat s c e).2.1
          (assignReverseConstructionNumber mat bw nominalRMat s c e).1
          (assignReverseConstructionNumber mat bw nominalRMat s c e).2.2).2.1
        (assignReverseConstructionNumber mat bw nominalRMat
          (assignReverseConstructionNumber mat bw nominalRMat s c e).2.1
          (assignReverseConstructionNumber mat bw nominalRMat s c e).1
          (assignReverseConstructionNumber mat bw nominalRMat s c e).2.2).1).layerPoint k =
      (getConstruct s c).layerPoint k := by
  have hc0 : c ≠ 0 := by omega
  have hwfc : wfConstruction (getConstruct s c) := wfState_entry s hwf c hc1 hc2
  have hrevc : reversedLayerPoint (getConstruct (markUsed s c) c) =
      reversedLayerPoint (getConstruct s c) :=
    reversedLayerPoint_congr _ _ (markUsed_totLayers _ _ _) (markUsed_layerPoint _ _ _)
  cases hfind : findMatchingConstruction (markUsed s c)
      (reversedLayerPoint (getConstruct (markUsed s c) c)) with
  | some i =>
    have h₁ := assignReverse_found mat bw nominalRMat s c e i hc0 hfind
    rw [h₁]
    dsimp only
    have hfind' := hfind
    unfold findMatchingConstruction at hfind'
    obtain ⟨hi1, hi2⟩ := List.mem_range'_1.mp (List.mem_of_find?_eq_some hfind')
    rw [markUsed_length] at hi2
    have hp := List.find?_some hfind'
    have hL : ∀ k, 1 ≤ k → k ≤ MaxLayersInConstruct →
        (getConstruct (markUsed s c) i).layerPoint k =
          reversedLayerPoint (getConstruct s c) k := by
      intro k h1 h2
      rw [(layerSlotsMatch_iff _ _).mp hp k h1 h2, hrevc]
    have hwfi : wfConstruction (getConstruct (markUsed s c) i) :=
      wfConstruction_congr _ _ (markUsed_totLayers _ _ _) (markUsed_layerPoint _ _ _)
        (wfState_entry s hwf i hi1 (by omega))
    have hT : (getConstruct (markUsed s c) i).totLayers =
        (getConstruct s c).totLayers :=
      slots_match_totLayers _ _ hwfi hwfc hL
    exact arc_second_call mat bw nominalRMat (markUsed s c) i e (getConstruct s c)
      (by omega) hwfc hT hL
  | none =>
    have hfst := arc_none_fst mat bw nominalRMat s c e hc0 hfind
    have hT : (getConstruct (assignReverseConstructionNumber mat bw nominalRMat s c e).2.1
        (assignReverseConstructionNumber mat bw nominalRMat s c e).1).totLayers =
        (getConstruct s c).totLayers := by
      rw [hfst, arc_none_new_tot mat bw nominalRMat s c e hc0 hfind, markUsed_totLayers]
    have hL : ∀ k, 1 ≤ k → k ≤ MaxLayersInConstruct →
        (getConstruct (assignReverseConstructionNumber mat bw nominalRMat s c e).2.1
          (assignReverseConstructionNumber mat bw nominalRMat s c e).1).layerPoint k =
          reversedLayerPoint (getConstruct s c) k := by
      intro k h1 h2
      rw [hfst, arc_none_new_lp mat bw nominalRMat s c e hc0 hfind]
      dsimp only
      rw [if_pos ⟨h1, h2⟩, hrevc]
    have hj0 : (assignReverseConstructionNumber mat bw nominalRMat s c e).1 ≠ 0 := by
      rw [hfst]
      omega
    exact arc_second_call mat bw nominalRMat
      (assignReverseConstructionNumber mat bw nominalRMat s c e).2.1
      (assignReverseConstructionNumber mat bw nominalRMat s c e).1
      (assignReverseConstructionNumber mat bw nominalRMat s c e).2.2
      (getConstruct s c) hj0 hwfc hT hL

/-- Witness for C6 at `stateSample` with index 1 and slot 1. -/
theorem c6_witness :
    wfState stateSample ∧ 1 ≤ 1 ∧ 1 ≤ stateSample.constructs.length ∧
    (getConstruct
        (assignReverseConstructionNumber matSample (fun _ => 0) (fun _ => 0)
          (assignReverseConstructionNumber matSample (fun _ => 0) (fun _ => 0)
            stateSample 1 false).2.1
          (assignReverseConstructionNumber matSample (fun _ => 0) (fun _ => 0)
            stateSample 1 false).1
          (assignReverseConstructionNumber matSample (fun _ => 0) (fun _ => 0)
            stateSample 1 false).2.2).2.1
        (assignReverseConstructionNumber matSample (fun _ => 0) (fun _ => 0)
          (assignReverseConstructionNumber matSample (fun _ => 0) (fun _ => 0)
            stateSample 1 false).2.1
          (assignReverseConstructionNumber matSample (fun _ => 0) (fun _ => 0)
            stateSample 1 false).1
          (assignReverseConstructionNumber matSample (fun _ => 0) (fun _ => 0)
            stateSample 1 false).2.2).1).layerPoint 1 =
      (getConstruct stateSample 1).layerPoint 1 :=
  ⟨by decide, le_refl 1, by decide,
    c6_reverse_round_trip matSample (fun _ => 0) (fun _ => 0) stateSample 1 false
      (by decide) (le_refl 1) (by decide) 1 (le_refl 1) (by decide)⟩

end DataHeatBalance
